import Mathlib

/-!
Verification of the VScope on-device virtual oscilloscope (src/onboard/vscope.c).

Shallow embedding conventions:
* C `uint8_t`/`uint16_t`/`uint32_t` values are `Nat` with explicit `% 2^w`
  at the points where the C code performs a narrowing conversion.
* C `float` values are modelled as `ℚ` (exact arithmetic).  The 32-bit wire
  representation of a float is abstracted by an `FCodec` (an encoder
  `ℚ → List Nat` producing four bytes and a decoder `List Nat → ℚ`); in the C
  code the corresponding operations are `memcpy`-based bit casts, which are
  mutually inverse, so theorems that need that fact carry it as a hypothesis.
* the compile-time configuration macros `VSCOPE_NUM_CHANNELS`,
  `VSCOPE_BUFFER_SIZE`, `VSCOPE_NAME_LEN`, `VSCOPE_MAX_VARIABLES`,
  `VSCOPE_RT_BUFFER_LEN`, `VSCOPE_FRAME_TIMEOUT_US` and
  `VSCOPE_PROTOCOL_VERSION` are not defined in the repository sources
  (they live in a configuration header that is not part of src/); they are
  modelled from the spec as a `Config` record, with the spec's default values
  (5, 1000, 16, 32, 16) available as `defaultConfig`.
* application float storage (the floats behind registered pointers) is a map
  `Nat → ℚ` carried in the state (`mem`); pointers are `FPtr` values
  (NULL, the internal `vscope_zero_value` cell, or an application address).
* the file-scope mutable C state (including the function-local `static`
  variables `last_delta`, `divider_ticks` and `run_index`) is the record
  `Scope`.  The receiver timestamp `rx_last_us` is threaded separately
  through `vscopeFeed` as an explicit `Nat`, mirroring that none of the
  frame handlers ever read it.
-/

namespace VScope

/-- Maximum payload size, `VSCOPE_MAX_PAYLOAD` (252, defined in vscope.c). -/
def maxPayload : Nat := 252

/-- Frame sync byte `VSCOPE_SYNC_BYTE` (0xC8). -/
def syncByte : Nat := 0xC8

/-! State machine constants (vscope.c enums, modelled numerically). -/

/-- VSCOPE_HALTED -/
def HALTED : Nat := 0
/-- VSCOPE_RUNNING -/
def RUNNING : Nat := 1
/-- VSCOPE_ACQUIRING -/
def ACQUIRING : Nat := 2
/-- VSCOPE_MISCONFIGURED -/
def MISCONFIGURED : Nat := 3

/-- VSCOPE_TRG_DISABLED -/
def TRG_DISABLED : Nat := 0
/-- VSCOPE_TRG_RISING -/
def TRG_RISING : Nat := 1
/-- VSCOPE_TRG_FALLING -/
def TRG_FALLING : Nat := 2
/-- VSCOPE_TRG_BOTH -/
def TRG_BOTH : Nat := 3

/-- VSCOPE_ERR_BAD_LEN -/
def ERR_BAD_LEN : Nat := 1
/-- VSCOPE_ERR_BAD_PARAM -/
def ERR_BAD_PARAM : Nat := 2
/-- VSCOPE_ERR_RANGE -/
def ERR_RANGE : Nat := 4
/-- VSCOPE_ERR_NOT_READY -/
def ERR_NOT_READY : Nat := 5

/-- VS_RX_IDLE -/
def RX_IDLE : Nat := 0
/-- VS_RX_LEN -/
def RX_LEN : Nat := 1
/-- VS_RX_DATA -/
def RX_DATA : Nat := 2

/-- Compile-time configuration macros of vscope.c.  Modelled from the spec:
the macros are not defined under src/ (they come from a configuration header
outside the repository snapshot); the spec gives their defaults in section 3. -/
structure Config where
  nCh : Nat
  buf : Nat
  nameLen : Nat
  maxVars : Nat
  rtLen : Nat
  timeoutUs : Nat
  protoVersion : Nat
  deriving DecidableEq

/-- Spec defaults: N_CH = 5, BUF = 1000, NAME = 16, VMAX = 32, RT_LEN = 16. -/
def defaultConfig : Config :=
  { nCh := 5, buf := 1000, nameLen := 16, maxVars := 32, rtLen := 16,
    timeoutUs := 100000, protoVersion := 1 }

/-- Basic sanity constraints on a configuration, implied by the integer types
used in vscope.c (`var_count`, `rt_count` are `uint8_t`; the buffer size is
reported as `uint16_t`; channel counts fit a byte). -/
def Config.WF (cfg : Config) : Prop :=
  0 < cfg.nCh ∧ cfg.nCh ≤ 255 ∧ 0 < cfg.buf ∧ cfg.buf ≤ 65535 ∧
  cfg.maxVars ≤ 255 ∧ cfg.rtLen ≤ 255 ∧ cfg.nameLen ≤ 255

instance (cfg : Config) : Decidable cfg.WF := by
  unfold Config.WF; infer_instance

/-- Pointer to an application float: NULL, the internal `vscope_zero_value`
cell, or an address in application memory. -/
inductive FPtr where
  | null : FPtr
  | zeroCell : FPtr
  | mem (addr : Nat) : FPtr
  deriving DecidableEq, Repr

/-- Dereference a float pointer against the application memory.  The internal
`vscope_zero_value` cell always reads 0 (it is never written); dereferencing
NULL is undefined behaviour in C and is given the junk value 0 here, with the
invariant claims showing it never happens. -/
def fderef (m : Nat → ℚ) : FPtr → ℚ
  | .null => 0
  | .zeroCell => 0
  | .mem a => m a

/-- Write through a float pointer.  Only application addresses are writable
(the code never writes through `vscope_zero_value` or NULL). -/
def fwrite (m : Nat → ℚ) : FPtr → ℚ → (Nat → ℚ)
  | .null, _ => m
  | .zeroCell, _ => m
  | .mem a, v => fun x => if x = a then v else m x

/-- Abstract 32-bit float wire codec (the C code uses `memcpy` bit casts in
`vscope_read_f32` / `vscope_write_f32`). -/
structure FCodec where
  enc : ℚ → List Nat
  dec : List Nat → ℚ

/-- Well-formedness of a float codec: the encoder emits exactly four bytes,
as `vscope_write_f32` does. -/
def FCodec.WF (fc : FCodec) : Prop :=
  ∀ q : ℚ, (fc.enc q).length = 4

/-- Catalog entry (`VscopeVar`): fixed-width name plus float pointer. -/
structure FVar where
  name : List Nat
  ptr : FPtr
  deriving DecidableEq

/-- Default (zero-initialized) catalog entry: all-zero name, NULL pointer. -/
def FVar.default (cfg : Config) : FVar :=
  { name := List.replicate cfg.nameLen 0, ptr := .null }

/-- Snapshot metadata (`VscopeSnapshotMeta`). -/
structure SnapMeta where
  divider : Nat
  preTrig : Nat
  channelMap : List Nat
  trigThreshold : ℚ
  trigChannel : Nat
  trigMode : Nat
  deriving DecidableEq

/-! Codec helper functions (vscope.c helper section). -/

/-- vscope_read_u16 -/
def readU16 (l : List Nat) : Nat :=
  l.getD 0 0 + 256 * l.getD 1 0

/-- vscope_read_u32 -/
def readU32 (l : List Nat) : Nat :=
  l.getD 0 0 + 256 * l.getD 1 0 + 65536 * l.getD 2 0 + 16777216 * l.getD 3 0

/-- vscope_write_u16 -/
def writeU16 (v : Nat) : List Nat :=
  [v % 256, v / 256 % 256]

/-- vscope_write_u32 -/
def writeU32 (v : Nat) : List Nat :=
  [v % 256, v / 256 % 256, v / 65536 % 256, v / 16777216 % 256]

/-- vscope_read_f32: decode four payload bytes to a float value. -/
def readF32 (fc : FCodec) (l : List Nat) : ℚ :=
  fc.dec (l.take 4)

/-- CRC8 lookup table `crc8_lut` of vscope.c, transcribed verbatim. -/
def crc8Lut : List Nat := [
  0, 213, 127, 170, 254, 43, 129, 84, 41, 252, 86, 131, 215, 2, 168, 125,
  82, 135, 45, 248, 172, 121, 211, 6, 123, 174, 4, 209, 133, 80, 250, 47,
  164, 113, 219, 14, 90, 143, 37, 240, 141, 88, 242, 39, 115, 166, 12, 217,
  246, 35, 137, 92, 8, 221, 119, 162, 223, 10, 160, 117, 33, 244, 94, 139,
  157, 72, 226, 55, 99, 182, 28, 201, 180, 97, 203, 30, 74, 159, 53, 224,
  207, 26, 176, 101, 49, 228, 78, 155, 230, 51, 153, 76, 24, 205, 103, 178,
  57, 236, 70, 147, 199, 18, 184, 109, 16, 197, 111, 186, 238, 59, 145, 68,
  107, 190, 20, 193, 149, 64, 234, 63, 66, 151, 61, 232, 188, 105, 195, 22,
  239, 58, 144, 69, 17, 196, 110, 187, 198, 19, 185, 108, 56, 237, 71, 146,
  189, 104, 194, 23, 67, 150, 60, 233, 148, 65, 235, 62, 106, 191, 21, 192,
  75, 158, 52, 225, 181, 96, 202, 31, 98, 183, 29, 200, 156, 73, 227, 54,
  25, 204, 102, 179, 231, 50, 152, 77, 48, 229, 79, 154, 206, 27, 177, 100,
  114, 167, 13, 216, 140, 89, 243, 38, 91, 142, 36, 241, 165, 112, 218, 15,
  32, 245, 95, 138, 222, 11, 161, 116, 9, 220, 118, 163, 247, 34, 136, 93,
  214, 3, 169, 124, 40, 253, 87, 130, 255, 42, 128, 85, 1, 212, 126, 171,
  132, 81, 251, 46, 122, 175, 5, 208, 173, 120, 210, 7, 83, 134, 44, 249]

/-- vscope_crc8: table-driven CRC-8 with seed 0 over a byte list. -/
def crc8 (data : List Nat) : Nat :=
  data.foldl (fun crc b => crc8Lut.getD (crc ^^^ b) 0) 0

/-- vscope_write_str_fixed: zero the destination, then `strncpy` at most
`len - 1` bytes (stopping at the first NUL byte of the source). -/
def strFixed (len : Nat) : Option (List Nat) → List Nat
  | none => List.replicate len 0
  | some src =>
      let s := (src.takeWhile (· ≠ 0)).take (len - 1)
      s ++ List.replicate (len - s.length) 0

/-- vscope_min_u16 -/
def minU16 (a b : Nat) : Nat :=
  if a < b then a else b

/-- Unsigned 32-bit subtraction `(uint32_t)(a - b)` used by the inter-byte
timeout check in vscopeFeed. -/
def u32sub (a b : Nat) : Nat :=
  (a % 2 ^ 32 + (2 ^ 32 - b % 2 ^ 32)) % 2 ^ 32

/-- Full mutable state of vscope.c: all file-scope statics (state machine,
configuration, registry, buffers, snapshot, RX machine) plus the
function-local statics of `vscope_check_trigger` (`last_delta`) and
`vscopeAcquire` (`divider_ticks`, `run_index`), plus the application float
memory `mem` that registered pointers point into.  The `rx_last_us`
timestamp is threaded separately by `vscopeFeed`. -/
structure Scope where
  state : Nat
  request : Nat
  isrKhz : Nat
  deviceName : List Nat
  divider : Nat
  preTrig : Nat
  acqTime : Nat
  index : Nat
  firstElement : Nat
  trigThreshold : ℚ
  trigChannel : Nat
  trigMode : Nat
  trigInvalid : Bool
  varCatalog : List FVar
  channelMap : List Nat
  frame : List FPtr
  buffer : List (List ℚ)
  rtValues : List FPtr
  rtNames : List (List Nat)
  snapMeta : SnapMeta
  snapRtValues : List ℚ
  snapRtCount : Nat
  snapValid : Bool
  lastDelta : ℚ
  dividerTicks : Nat
  runIndex : Nat
  rxState : Nat
  rxExpectedLen : Nat
  rxIndex : Nat
  rxBuf : List Nat
  mem : Nat → ℚ

/-- Pre-init registration state (the registry tables while unlocked). -/
structure RegState where
  varCatalog : List FVar
  rtValues : List FPtr
  rtNames : List (List Nat)
  locked : Bool
  deriving DecidableEq

/-- vscopeRegisterVar: append to the variable catalog unless locked, full, or
the pointer is NULL. -/
def vscopeRegisterVar (cfg : Config) (r : RegState) (name : Option (List Nat))
    (ptr : FPtr) : RegState :=
  if r.locked ∨ cfg.maxVars ≤ r.varCatalog.length ∨ ptr = .null then r
  else { r with varCatalog := r.varCatalog ++ [{ name := strFixed cfg.nameLen name, ptr := ptr }] }

/-- vscopeRegisterRtBuffer: append to the RT catalog unless locked, full, or
the pointer is NULL. -/
def vscopeRegisterRtBuffer (cfg : Config) (r : RegState) (name : Option (List Nat))
    (ptr : FPtr) : RegState :=
  if r.locked ∨ cfg.rtLen ≤ r.rtValues.length ∨ ptr = .null then r
  else { r with rtValues := r.rtValues ++ [ptr],
                rtNames := r.rtNames ++ [strFixed cfg.nameLen name] }

/-- vscopeInit: reset all state, lock the registries, establish the initial
channel map and frame pointers, and zero the capture buffer.  Fields the C
code leaves untouched here (snapshot metadata, RX machine, function-local
statics) take their C static zero-initial values. -/
def vscopeInit (cfg : Config) (r : RegState) (deviceName : Option (List Nat))
    (isrKhz : Nat) (mem : Nat → ℚ) : Scope :=
  let varCount := r.varCatalog.length
  { state := if varCount < cfg.nCh then MISCONFIGURED else HALTED
    request := HALTED
    isrKhz := isrKhz
    deviceName := strFixed cfg.nameLen deviceName
    divider := 1
    preTrig := 0
    acqTime := cfg.buf - 0
    index := 0
    firstElement := 0
    trigThreshold := 0
    trigChannel := 0
    trigMode := TRG_DISABLED
    trigInvalid := true
    varCatalog := r.varCatalog
    channelMap :=
      if varCount = 0 then List.replicate cfg.nCh 0
      else (List.range cfg.nCh).map (fun i => if i < varCount then i else 0)
    frame :=
      if varCount = 0 then List.replicate cfg.nCh FPtr.zeroCell
      else (List.range cfg.nCh).map
        (fun i => (r.varCatalog.getD (if i < varCount then i else 0) (FVar.default cfg)).ptr)
    buffer := List.replicate cfg.buf (List.replicate cfg.nCh 0)
    rtValues := r.rtValues
    rtNames := r.rtNames
    snapMeta := { divider := 0, preTrig := 0, channelMap := List.replicate cfg.nCh 0,
                  trigThreshold := 0, trigChannel := 0, trigMode := 0 }
    snapRtValues := List.replicate cfg.rtLen 0
    snapRtCount := 0
    snapValid := false
    lastDelta := 0
    dividerTicks := 0
    runIndex := 0
    rxState := RX_IDLE
    rxExpectedLen := 0
    rxIndex := 0
    rxBuf := List.replicate (maxPayload + 2) 0
    mem := mem }

/-- Bytes of one transmitted frame (one `vscopeTxBytes` call). -/
abbrev TxFrame := List Nat

/-- vscope_send_frame: build `[SYNC, LEN, TYPE, payload..., CRC]` and push it
to `vscopeTxBytes`; oversize payloads are silently dropped.  The result is
the list of frames handed to the transport (empty or a singleton). -/
def vscope_send_frame (ty : Nat) (payload : List Nat) : List TxFrame :=
  if maxPayload < payload.length then []
  else [[syncByte, payload.length + 2, ty] ++ payload ++ [crc8 (ty :: payload)]]

/-- vscope_send_error -/
def vscope_send_error (code : Nat) : List TxFrame :=
  vscope_send_frame 0xFF [code]

/-- vscope_send_payload: length-guarded send (oversize data turns into a
BAD_LEN error frame). -/
def vscope_send_payload (ty : Nat) (data : List Nat) : List TxFrame :=
  if maxPayload < data.length then vscope_send_error ERR_BAD_LEN
  else vscope_send_frame ty data

/-- vscope_get_mapped_channel -/
def vscope_get_mapped_channel (cfg : Config) (s : Scope) (channel : Nat) : Nat :=
  if cfg.nCh ≤ channel then 0 else s.channelMap.getD channel 0

/-- vscope_update_channel_map: validate all ids against the catalog first;
only if all are in range, rewrite the whole map and all frame pointers. -/
def vscope_update_channel_map (cfg : Config) (s : Scope) (ids : List Nat) :
    Bool × Scope :=
  if (List.range cfg.nCh).all (fun i => ids.getD i 0 < s.varCatalog.length) then
    (true,
     { s with
       channelMap := (List.range cfg.nCh).map (fun i => ids.getD i 0),
       frame := (List.range cfg.nCh).map
         (fun i => (s.varCatalog.getD (ids.getD i 0) (FVar.default cfg)).ptr) })
  else (false, s)

/-- vscopeTrigger: arm the acquisition request, but only from RUNNING. -/
def vscopeTrigger (s : Scope) : Scope :=
  if s.state = RUNNING then { s with request := ACQUIRING } else s

/-- vscope_handle_get_info -/
def vscope_handle_get_info (cfg : Config) (s : Scope) : Scope × List TxFrame :=
  let data := [cfg.protoVersion % 256, cfg.nCh % 256] ++ writeU16 cfg.buf ++
    writeU16 s.isrKhz ++
    [s.varCatalog.length, s.rtValues.length, cfg.rtLen % 256, cfg.nameLen % 256] ++
    strFixed cfg.nameLen (some s.deviceName)
  (s, vscope_send_payload 0x01 data)

/-- vscope_send_timing (also the body of vscope_handle_get_timing) -/
def vscope_send_timing (s : Scope) (ty : Nat) : List TxFrame :=
  vscope_send_payload ty (writeU32 s.divider ++ writeU32 s.preTrig)

/-- vscope_handle_set_timing -/
def vscope_handle_set_timing (cfg : Config) (s : Scope) (payload : List Nat) :
    Scope × List TxFrame :=
  if payload.length ≠ 8 then (s, vscope_send_error ERR_BAD_LEN)
  else
    let divider := readU32 payload
    let preTrig := readU32 (payload.drop 4)
    if divider = 0 ∨ cfg.buf < preTrig then (s, vscope_send_error ERR_BAD_PARAM)
    else if s.state ≠ HALTED then (s, vscope_send_error ERR_BAD_PARAM)
    else
      let s := { s with divider := divider, preTrig := preTrig,
                        acqTime := cfg.buf - preTrig }
      (s, vscope_send_timing s 0x03)

/-- vscope_send_state (also the body of vscope_handle_get_state) -/
def vscope_send_state (s : Scope) (ty : Nat) : List TxFrame :=
  vscope_send_payload ty [s.state % 256]

/-- vscope_handle_set_state -/
def vscope_handle_set_state (s : Scope) (payload : List Nat) :
    Scope × List TxFrame :=
  if payload.length ≠ 1 then (s, vscope_send_error ERR_BAD_LEN)
  else
    let requested := payload.getD 0 0
    if ACQUIRING < requested then (s, vscope_send_error ERR_BAD_PARAM)
    else
      let s := { s with request := requested }
      (s, vscope_send_state s 0x05)

/-- vscope_handle_trigger -/
def vscope_handle_trigger (s : Scope) : Scope × List TxFrame :=
  (vscopeTrigger s, vscope_send_payload 0x06 [])

/-- vscope_handle_get_frame -/
def vscope_handle_get_frame (cfg : Config) (fc : FCodec) (s : Scope) :
    Scope × List TxFrame :=
  let data := (List.range cfg.nCh).flatMap
    (fun i => fc.enc (fderef s.mem (s.frame.getD i .null)))
  (s, vscope_send_payload 0x07 data)

/-- vscope_handle_get_snapshot_header -/
def vscope_handle_get_snapshot_header (cfg : Config) (fc : FCodec) (s : Scope) :
    Scope × List TxFrame :=
  if s.snapValid = false then (s, vscope_send_error ERR_NOT_READY)
  else
    let data := (List.range cfg.nCh).map (fun i => s.snapMeta.channelMap.getD i 0) ++
      writeU32 s.snapMeta.divider ++ writeU32 s.snapMeta.preTrig ++
      fc.enc s.snapMeta.trigThreshold ++
      [s.snapMeta.trigChannel, s.snapMeta.trigMode % 256] ++
      (List.range s.snapRtCount).flatMap (fun i => fc.enc (s.snapRtValues.getD i 0))
    (s, vscope_send_payload 0x08 data)

/-- vscope_handle_get_snapshot_data.  Note the order of the checks: snapshot
validity is tested before the payload length. -/
def vscope_handle_get_snapshot_data (cfg : Config) (fc : FCodec) (s : Scope)
    (payload : List Nat) : Scope × List TxFrame :=
  if s.snapValid = false then (s, vscope_send_error ERR_NOT_READY)
  else if payload.length ≠ 3 then (s, vscope_send_error ERR_BAD_LEN)
  else
    let startSample := readU16 payload
    let requestedCount := payload.getD 2 0
    if cfg.buf ≤ startSample ∨ requestedCount = 0 ∨ cfg.buf < requestedCount then
      (s, vscope_send_error ERR_BAD_PARAM)
    else if cfg.buf < startSample + requestedCount then
      (s, vscope_send_error ERR_BAD_PARAM)
    else if maxPayload / (cfg.nCh * 4) < requestedCount then
      (s, vscope_send_error ERR_BAD_LEN)
    else
      let data := (List.range requestedCount).flatMap (fun i =>
        let sampleIndex := (s.firstElement + startSample + i) % cfg.buf
        (List.range cfg.nCh).flatMap
          (fun ch => fc.enc ((s.buffer.getD sampleIndex []).getD ch 0)))
      (s, vscope_send_payload 0x09 data)

/-- vscope_handle_get_var_list -/
def vscope_handle_get_var_list (cfg : Config) (s : Scope) (payload : List Nat) :
    Scope × List TxFrame :=
  if 2 < payload.length then (s, vscope_send_error ERR_BAD_LEN)
  else
    let startIdx := payload.getD 0 0
    let requestedCount := if 2 ≤ payload.length then payload.getD 1 0 else 0xFF
    let varCount := s.varCatalog.length
    if varCount < startIdx then (s, vscope_send_error ERR_BAD_PARAM)
    else
      let entrySize := 1 + cfg.nameLen
      let maxEntries := (maxPayload - 3) / entrySize
      let available := varCount - startIdx
      let desired := if requestedCount = 0xFF then available else requestedCount
      let count := minU16 desired (minU16 available maxEntries)
      let data := [varCount, startIdx, count % 256] ++
        (List.range count).flatMap (fun i =>
          let id := (startIdx + i) % 256
          id :: strFixed cfg.nameLen (some (s.varCatalog.getD id (FVar.default cfg)).name))
      (s, vscope_send_payload 0x0A data)

/-- vscope_send_channel_map (also the body of vscope_handle_get_channel_map) -/
def vscope_send_channel_map (cfg : Config) (s : Scope) (ty : Nat) : List TxFrame :=
  vscope_send_payload ty ((List.range cfg.nCh).map (fun i => s.channelMap.getD i 0))

/-- vscope_handle_set_channel_map -/
def vscope_handle_set_channel_map (cfg : Config) (s : Scope) (payload : List Nat) :
    Scope × List TxFrame :=
  if payload.length ≠ cfg.nCh then (s, vscope_send_error ERR_BAD_LEN)
  else
    let r := vscope_update_channel_map cfg s payload
    if r.1 = false then (s, vscope_send_error ERR_BAD_PARAM)
    else (r.2, vscope_send_channel_map cfg r.2 0x0C)

/-- vscope_handle_get_channel_labels -/
def vscope_handle_get_channel_labels (cfg : Config) (s : Scope) :
    Scope × List TxFrame :=
  let data := (List.range cfg.nCh).flatMap (fun i =>
    let id := vscope_get_mapped_channel cfg s i
    if id < s.varCatalog.length then
      strFixed cfg.nameLen (some (s.varCatalog.getD id (FVar.default cfg)).name)
    else List.replicate cfg.nameLen 0)
  (s, vscope_send_payload 0x0D data)

/-- vscope_handle_get_rt_labels -/
def vscope_handle_get_rt_labels (cfg : Config) (s : Scope) (payload : List Nat) :
    Scope × List TxFrame :=
  if 2 < payload.length then (s, vscope_send_error ERR_BAD_LEN)
  else
    let startIdx := payload.getD 0 0
    let requestedCount := if 2 ≤ payload.length then payload.getD 1 0 else 0xFF
    let rtCount := s.rtValues.length
    if rtCount < startIdx then (s, vscope_send_error ERR_BAD_PARAM)
    else
      let entrySize := 1 + cfg.nameLen
      let maxEntries := (maxPayload - 3) / entrySize
      let available := rtCount - startIdx
      let desired := if requestedCount = 0xFF then available else requestedCount
      let count := minU16 desired (minU16 available maxEntries)
      let data := [rtCount, startIdx, count % 256] ++
        (List.range count).flatMap (fun i =>
          let id := (startIdx + i) % 256
          id :: strFixed cfg.nameLen (some (s.rtNames.getD id [])))
      (s, vscope_send_payload 0x0E data)

/-- vscope_handle_get_rt_buffer -/
def vscope_handle_get_rt_buffer (fc : FCodec) (s : Scope) (payload : List Nat) :
    Scope × List TxFrame :=
  if payload.length ≠ 1 then (s, vscope_send_error ERR_BAD_LEN)
  else
    let idx := payload.getD 0 0
    if s.rtValues.length ≤ idx then (s, vscope_send_error ERR_RANGE)
    else (s, vscope_send_payload 0x0F (fc.enc (fderef s.mem (s.rtValues.getD idx .null))))

/-- vscope_handle_set_rt_buffer (the echo re-reads the value through the
pointer after the store, as vscope_send_rt_buffer_value does). -/
def vscope_handle_set_rt_buffer (fc : FCodec) (s : Scope) (payload : List Nat) :
    Scope × List TxFrame :=
  if payload.length ≠ 5 then (s, vscope_send_error ERR_BAD_LEN)
  else
    let idx := payload.getD 0 0
    if s.rtValues.length ≤ idx then (s, vscope_send_error ERR_RANGE)
    else
      let value := readF32 fc (payload.drop 1)
      let s := { s with mem := fwrite s.mem (s.rtValues.getD idx .null) value }
      (s, vscope_send_payload 0x10 (fc.enc (fderef s.mem (s.rtValues.getD idx .null))))

/-- vscope_send_trigger (also the body of vscope_handle_get_trigger) -/
def vscope_send_trigger (fc : FCodec) (s : Scope) (ty : Nat) : List TxFrame :=
  vscope_send_payload ty (fc.enc s.trigThreshold ++ [s.trigChannel, s.trigMode % 256])

/-- vscope_handle_set_trigger -/
def vscope_handle_set_trigger (cfg : Config) (fc : FCodec) (s : Scope)
    (payload : List Nat) : Scope × List TxFrame :=
  if payload.length ≠ 6 then (s, vscope_send_error ERR_BAD_LEN)
  else
    let threshold := readF32 fc payload
    let channel := payload.getD 4 0
    let mode := payload.getD 5 0
    if cfg.nCh ≤ channel ∨ TRG_BOTH < mode then (s, vscope_send_error ERR_BAD_PARAM)
    else
      let s := { s with trigThreshold := threshold, trigChannel := channel,
                        trigMode := mode, trigInvalid := true }
      (s, vscope_send_trigger fc s 0x12)

/-- vscope_handle_frame: the command dispatcher.  Message types that carry no
payload are length-checked here; the rest delegate to their handler. -/
def vscope_handle_frame (cfg : Config) (fc : FCodec) (s : Scope) (ty : Nat)
    (payload : List Nat) : Scope × List TxFrame :=
  match ty with
  | 0x01 => if payload.length ≠ 0 then (s, vscope_send_error ERR_BAD_LEN)
            else vscope_handle_get_info cfg s
  | 0x02 => if payload.length ≠ 0 then (s, vscope_send_error ERR_BAD_LEN)
            else (s, vscope_send_timing s 0x02)
  | 0x03 => vscope_handle_set_timing cfg s payload
  | 0x04 => if payload.length ≠ 0 then (s, vscope_send_error ERR_BAD_LEN)
            else (s, vscope_send_state s 0x04)
  | 0x05 => vscope_handle_set_state s payload
  | 0x06 => if payload.length ≠ 0 then (s, vscope_send_error ERR_BAD_LEN)
            else vscope_handle_trigger s
  | 0x07 => if payload.length ≠ 0 then (s, vscope_send_error ERR_BAD_LEN)
            else vscope_handle_get_frame cfg fc s
  | 0x08 => if payload.length ≠ 0 then (s, vscope_send_error ERR_BAD_LEN)
            else vscope_handle_get_snapshot_header cfg fc s
  | 0x09 => vscope_handle_get_snapshot_data cfg fc s payload
  | 0x0A => vscope_handle_get_var_list cfg s payload
  | 0x0B => if payload.length ≠ 0 then (s, vscope_send_error ERR_BAD_LEN)
            else (s, vscope_send_channel_map cfg s 0x0B)
  | 0x0C => vscope_handle_set_channel_map cfg s payload
  | 0x0D => if payload.length ≠ 0 then (s, vscope_send_error ERR_BAD_LEN)
            else vscope_handle_get_channel_labels cfg s
  | 0x0E => vscope_handle_get_rt_labels cfg s payload
  | 0x0F => vscope_handle_get_rt_buffer fc s payload
  | 0x10 => vscope_handle_set_rt_buffer fc s payload
  | 0x11 => if payload.length ≠ 0 then (s, vscope_send_error ERR_BAD_LEN)
            else (s, vscope_send_trigger fc s 0x11)
  | 0x12 => vscope_handle_set_trigger cfg fc s payload
  | _ => (s, vscope_send_error ERR_BAD_PARAM)

/-- vscope_capture_snapshot_meta: freeze timing, channel map and trigger
configuration, and copy the current RT values. -/
def vscope_capture_snapshot_meta (s : Scope) : Scope :=
  { s with
    snapMeta := { divider := s.divider, preTrig := s.preTrig,
                  channelMap := s.channelMap, trigThreshold := s.trigThreshold,
                  trigChannel := s.trigChannel, trigMode := s.trigMode % 256 },
    snapRtCount := s.rtValues.length,
    snapRtValues :=
      (List.range s.rtValues.length).map (fun i => fderef s.mem (s.rtValues.getD i .null))
        ++ s.snapRtValues.drop s.rtValues.length }

/-- vscope_save_frame: copy the current frame into the buffer row at the
write index, then advance the write index with wraparound. -/
def vscope_save_frame (cfg : Config) (s : Scope) : Scope :=
  let row := (List.range cfg.nCh).map (fun i => fderef s.mem (s.frame.getD i .null))
  let index := s.index + 1
  { s with buffer := s.buffer.set s.index row,
           index := if cfg.buf ≤ index then 0 else index }

/-- Value of the local `current_delta` of vscope_check_trigger: the selected
channel's sample minus the trigger threshold. -/
def triggerDelta (s : Scope) : ℚ :=
  fderef s.mem (s.frame.getD s.trigChannel .null) - s.trigThreshold

/-- vscope_check_trigger: sign-change edge detector on the selected channel.
The function-local `static float last_delta` lives in the state. -/
def vscope_check_trigger (s : Scope) : Scope :=
  let current := triggerDelta s
  if s.trigInvalid then { s with lastDelta := current, trigInvalid := false }
  else if s.trigMode = TRG_DISABLED then { s with lastDelta := current }
  else
    let s1 :=
      if current * s.lastDelta < 0 then
        if 0 < current then
          (if s.trigMode ≠ TRG_FALLING then vscopeTrigger s else s)
        else
          (if s.trigMode ≠ TRG_RISING then vscopeTrigger s else s)
      else s
    { s1 with lastDelta := current }

/-- State-machine switch of vscopeAcquire (the `switch (vscope_state)` body,
run after the divider gate and the trigger check). -/
def vscope_acquire_switch (cfg : Config) (s : Scope) : Scope :=
  if s.state = HALTED then
    let s := { s with index := 0 }
    if s.request = RUNNING then { s with state := RUNNING, snapValid := false }
    else s
  else if s.state = RUNNING then
    let s := if s.request = HALTED then { s with state := HALTED } else s
    let s :=
      if s.request = ACQUIRING then
        let s := vscope_capture_snapshot_meta s
        if s.acqTime = 0 then
          { s with state := HALTED, firstElement := s.index, snapValid := true }
        else { s with state := ACQUIRING, runIndex := 1 }
      else s
    vscope_save_frame cfg s
  else if s.state = ACQUIRING then
    if s.runIndex = s.acqTime then
      { s with state := HALTED, firstElement := s.index, snapValid := true }
    else vscope_save_frame cfg { s with runIndex := (s.runIndex + 1) % 65536 }
  else s

/-- vscopeAcquire: one ISR tick.  The function-local statics `divider_ticks`
and `run_index` live in the state (`run_index` is a `uint16_t`). -/
def vscopeAcquire (cfg : Config) (s : Scope) : Scope :=
  if (s.dividerTicks + 1) % 2 ^ 32 < s.divider then
    { s with dividerTicks := (s.dividerTicks + 1) % 2 ^ 32 }
  else vscope_acquire_switch cfg (vscope_check_trigger { s with dividerTicks := 0 })

/-- vscope_reset_rx -/
def vscope_reset_rx (s : Scope) : Scope :=
  { s with rxState := RX_IDLE, rxExpectedLen := 0, rxIndex := 0 }

/-- Body of the per-byte switch of vscopeFeed.  Takes and returns the
`rx_last_us` timestamp (a separate C global, threaded explicitly); `nowUs` is
the timestamp of the surrounding vscopeFeed call. -/
def vscope_rx_byte (cfg : Config) (fc : FCodec) (s : Scope) (lastUs : Nat)
    (b : Nat) (nowUs : Nat) : (Scope × Nat) × List TxFrame :=
  let byte := b % 256
  if s.rxState = RX_IDLE then
    if byte = syncByte then (({ s with rxState := RX_LEN }, nowUs), [])
    else ((s, lastUs), [])
  else if s.rxState = RX_LEN then
    if byte < 2 ∨ maxPayload + 2 < byte then ((vscope_reset_rx s, nowUs), [])
    else (({ s with rxExpectedLen := byte, rxIndex := 0, rxState := RX_DATA }, nowUs), [])
  else if s.rxState = RX_DATA then
    let s := { s with rxBuf := s.rxBuf.set s.rxIndex byte, rxIndex := s.rxIndex + 1 }
    if s.rxExpectedLen ≤ s.rxIndex then
      let crc := s.rxBuf.getD (s.rxExpectedLen - 1) 0
      let calcCrc := crc8 (s.rxBuf.take (s.rxExpectedLen - 1))
      if crc = calcCrc then
        let ty := s.rxBuf.getD 0 0
        let payload := (s.rxBuf.drop 1).take (s.rxExpectedLen - 2)
        let r := vscope_handle_frame cfg fc s ty payload
        ((vscope_reset_rx r.1, nowUs), r.2)
      else ((vscope_reset_rx s, nowUs), [])
    else ((s, nowUs), [])
  else ((vscope_reset_rx s, lastUs), [])

/-- Byte loop of vscopeFeed over the received data. -/
def vscope_feed_loop (cfg : Config) (fc : FCodec) (s : Scope) (lastUs : Nat)
    (data : List Nat) (nowUs : Nat) : (Scope × Nat) × List TxFrame :=
  match data with
  | [] => ((s, lastUs), [])
  | b :: rest =>
      let r1 := vscope_rx_byte cfg fc s lastUs b nowUs
      let r2 := vscope_feed_loop cfg fc r1.1.1 r1.1.2 rest nowUs
      (r2.1, r1.2 ++ r2.2)

/-- vscopeFeed: inter-byte timeout check on entry, then the per-byte RX state
machine.  Returns the new state, the new `rx_last_us`, and all frames sent
while handling completed commands. -/
def vscopeFeed (cfg : Config) (fc : FCodec) (s : Scope) (lastUs : Nat)
    (data : List Nat) (nowUs : Nat) : (Scope × Nat) × List TxFrame :=
  if data = [] then ((s, lastUs), [])
  else
    let s := if s.rxState ≠ RX_IDLE ∧ cfg.timeoutUs < u32sub nowUs lastUs then
               vscope_reset_rx s
             else s
    vscope_feed_loop cfg fc s lastUs data nowUs

/-- External events after init: an ISR tick (with the application memory as
seen at that tick), a dispatched command frame, fed bytes, or a manual
trigger.  The second component of the state is `rx_last_us`. -/
inductive Ev where
  | tick (env : Nat → ℚ) : Ev
  | cmd (ty : Nat) (payload : List Nat) : Ev
  | feed (bytes : List Nat) (nowUs : Nat) : Ev
  | trig : Ev

/-- One event step. -/
def stepEv (cfg : Config) (fc : FCodec) (p : Scope × Nat) : Ev → Scope × Nat
  | .tick env => (vscopeAcquire cfg { p.1 with mem := env }, p.2)
  | .cmd ty payload => ((vscope_handle_frame cfg fc p.1 ty payload).1, p.2)
  | .feed bytes nowUs => (vscopeFeed cfg fc p.1 p.2 bytes nowUs).1
  | .trig => (vscopeTrigger p.1, p.2)

/-- Run a list of events. -/
def runEv (cfg : Config) (fc : FCodec) (p : Scope × Nat) : List Ev → Scope × Nat
  | [] => p
  | e :: es => runEv cfg fc (stepEv cfg fc p e) es

/-- Iterated ISR ticks with a per-tick view of the application memory:
tick number k + 1 samples `envs k`. -/
def ticksN (cfg : Config) (envs : Nat → Nat → ℚ) (s : Scope) : Nat → Scope
  | 0 => s
  | k + 1 => vscopeAcquire cfg { ticksN cfg envs s k with mem := envs k }

/-! Helper lemmas. -/

theorem getD_range_map {α : Type _} (f : Nat → α) (n i : Nat) (d : α) (hi : i < n) :
    ((List.range n).map f).getD i d = f i := by
  rw [List.getD_eq_getElem?_getD, List.getElem?_map, List.getElem?_range hi]
  rfl

theorem getD_replicate {α : Type _} (v : α) (n i : Nat) (d : α) (hi : i < n) :
    (List.replicate n v).getD i d = v := by
  rw [List.getD_eq_getElem?_getD, List.getElem?_replicate, if_pos hi]
  rfl

theorem range_map_getD {α : Type _} (l : List α) (d : α) :
    (List.range l.length).map (fun i => l.getD i d) = l := by
  apply List.ext_getElem
  · simp
  · intro i h1 h2
    simp only [List.getElem_map, List.getElem_range]
    rw [List.getD_eq_getElem?_getD, List.getElem?_eq_getElem h2]
    rfl

theorem vscope_send_frame_length (ty : Nat) (payload : List Nat)
    (h : payload.length ≤ maxPayload) : (vscope_send_frame ty payload).length = 1 := by
  unfold vscope_send_frame
  rw [if_neg (by omega)]
  rfl

theorem vscope_send_error_length (code : Nat) : (vscope_send_error code).length = 1 := by
  unfold vscope_send_error
  exact vscope_send_frame_length _ _ (by simp [maxPayload])

theorem vscope_send_payload_length (ty : Nat) (data : List Nat) :
    (vscope_send_payload ty data).length = 1 := by
  unfold vscope_send_payload
  split
  · exact vscope_send_error_length _
  · exact vscope_send_frame_length _ _ (by omega)

/-! Concrete instances used by witnesses and counterexamples. -/

/-- Concrete float codec instance for witnesses: encodes the numerator
magnitude into the first byte.  (The theorems are parametric in the codec;
this instance only serves to evaluate them on concrete runs.) -/
def simpleCodec : FCodec :=
  { enc := fun q => [q.num.natAbs % 256, q.num.natAbs / 256 % 256, 0, 0],
    dec := fun b => ((b.getD 0 0 + 256 * b.getD 1 0 : Nat) : ℚ) }

/-- Concrete registration state with five catalog variables at addresses
0..4 and one RT variable at address 10. -/
def regA : RegState :=
  { varCatalog :=
      [{ name := [97], ptr := .mem 0 }, { name := [98], ptr := .mem 1 },
       { name := [99], ptr := .mem 2 }, { name := [100], ptr := .mem 3 },
       { name := [101], ptr := .mem 4 }],
    rtValues := [.mem 10], rtNames := [[114]], locked := false }

/-- Concrete registration state with only two catalog variables. -/
def regB : RegState :=
  { varCatalog := [{ name := [97], ptr := .mem 0 }, { name := [98], ptr := .mem 1 }],
    rtValues := [], rtNames := [], locked := false }

/-- Concrete post-init state under the default configuration (five
registered variables, so the initial state is HALTED). -/
def baseScope : Scope :=
  vscopeInit defaultConfig regA none 16 (fun _ => 0)

/-! ### Claim C4: the initial channel map -/

/-- Counterexample to C4: with the default configuration and two registered
variables, init sets channel 2 of the map to 0, not min(2, var_count-1) = 1. -/
theorem claim_C4_counterexample :
    (vscopeInit defaultConfig regB none 0 (fun _ => 0)).channelMap.getD 2 0 = 0 ∧
      Nat.min 2 (regB.varCatalog.length - 1) = 1 := by
  constructor
  · rfl
  · rfl

/-- Claim C4 (amended): after init, channel i of the initial channel map is
i when i < var_count and 0 otherwise (in particular it is 0, not
var_count - 1, for channels at or beyond the catalog size). -/
theorem claim_C4_init_channel_map (cfg : Config) (r : RegState)
    (dn : Option (List Nat)) (khz : Nat) (m : Nat → ℚ) (i : Nat)
    (hi : i < cfg.nCh) :
    (vscopeInit cfg r dn khz m).channelMap.getD i 0 =
      if i < r.varCatalog.length then i else 0 := by
  unfold vscopeInit
  by_cases h : r.varCatalog.length = 0
  · simp only [h, if_true]
    rw [getD_replicate _ _ _ _ hi, if_neg (by omega)]
  · simp only [h, if_false]
    rw [getD_range_map _ _ _ _ hi]

/-- Witness for the amended C4 theorem at a concrete configuration. -/
theorem claim_C4_witness :
    (2 < defaultConfig.nCh ∧
      (vscopeInit defaultConfig regB none 0 (fun _ => 0)).channelMap.getD 2 0 =
        if 2 < regB.varCatalog.length then 2 else 0) :=
  ⟨by decide, claim_C4_init_channel_map defaultConfig regB none 0 (fun _ => 0) 2 (by decide)⟩

/-! ### Claim C3: the trigger edge predicate -/

/-- Claim C3: on a tick where the trigger is armed (invalid flag clear, mode
not DISABLED), the detector emits a trigger (observable as the request
becoming ACQUIRING while RUNNING) exactly when the product of the current
delta and the stored previous delta is negative and the edge direction is
permitted by the mode; and a zero current delta yields a zero product and
never emits. -/
theorem claim_C3_trigger_iff (s : Scope)
    (hinv : s.trigInvalid = false) (hmode : s.trigMode ≠ TRG_DISABLED)
    (hrun : s.state = RUNNING) (hreq : s.request ≠ ACQUIRING) :
    ((vscope_check_trigger s).request = ACQUIRING ↔
      (triggerDelta s * s.lastDelta < 0 ∧
        ((0 < triggerDelta s ∧ s.trigMode ≠ TRG_FALLING) ∨
         (triggerDelta s < 0 ∧ s.trigMode ≠ TRG_RISING)))) ∧
    (triggerDelta s = 0 →
      triggerDelta s * s.lastDelta = 0 ∧
        (vscope_check_trigger s).request = s.request) := by
  unfold vscope_check_trigger vscopeTrigger
  simp only [hinv, Bool.false_eq_true, if_false, if_neg hmode, hrun, if_pos rfl, if_true]
  constructor
  · constructor
    · intro hR
      by_cases h1 : triggerDelta s * s.lastDelta < 0
      case neg => rw [if_neg h1] at hR; exact absurd hR hreq
      refine ⟨h1, ?_⟩
      have hne : triggerDelta s ≠ 0 := by
        intro h0
        rw [h0, zero_mul] at h1
        exact lt_irrefl 0 h1
      by_cases h2 : 0 < triggerDelta s
      · refine Or.inl ⟨h2, ?_⟩
        intro hmf
        rw [if_pos h1, if_pos h2, if_neg (by simp [hmf])] at hR
        exact absurd hR hreq
      · refine Or.inr ⟨lt_of_le_of_ne (le_of_not_lt h2) hne, ?_⟩
        intro hmr
        rw [if_pos h1, if_neg h2, if_neg (by simp [hmr])] at hR
        exact absurd hR hreq
    · rintro ⟨h1, hdir⟩
      rw [if_pos h1]
      rcases hdir with ⟨h2, h3⟩ | ⟨h2, h3⟩
      · rw [if_pos h2, if_pos h3]
      · rw [if_neg (not_lt.mpr (le_of_lt h2)), if_pos h3]
  · intro h0
    refine ⟨by rw [h0, zero_mul], ?_⟩
    rw [if_neg (by rw [h0, zero_mul]; exact lt_irrefl 0)]

/-- Concrete armed state for the C3 witness: RUNNING, trigger mode BOTH,
previous delta negative, current channel value above the threshold. -/
def scope3 : Scope :=
  { baseScope with
    state := RUNNING
    trigInvalid := false
    trigMode := TRG_BOTH
    lastDelta := -1
    mem := fun _ => 1 }

/-- Witness for C3 at a concrete armed state (a rising crossing in mode
BOTH emits a trigger). -/
theorem claim_C3_witness :
    scope3.trigInvalid = false ∧ scope3.trigMode ≠ TRG_DISABLED ∧
      scope3.state = RUNNING ∧ scope3.request ≠ ACQUIRING ∧
      (((vscope_check_trigger scope3).request = ACQUIRING ↔
        (triggerDelta scope3 * scope3.lastDelta < 0 ∧
          ((0 < triggerDelta scope3 ∧ scope3.trigMode ≠ TRG_FALLING) ∨
           (triggerDelta scope3 < 0 ∧ scope3.trigMode ≠ TRG_RISING)))) ∧
       (triggerDelta scope3 = 0 →
         triggerDelta scope3 * scope3.lastDelta = 0 ∧
           (vscope_check_trigger scope3).request = scope3.request)) :=
  ⟨rfl, by decide, rfl, by decide,
   claim_C3_trigger_iff scope3 rfl (by decide) rfl (by decide)⟩

/-! ### Claim C1: exactly one response per dispatched frame, none on CRC
mismatch -/

theorem vscope_handle_frame_out_length (cfg : Config) (fc : FCodec) (s : Scope)
    (ty : Nat) (payload : List Nat) :
    ((vscope_handle_frame cfg fc s ty payload).2).length = 1 := by
  unfold vscope_handle_frame
  split <;>
    simp only [vscope_handle_get_info, vscope_handle_set_timing,
      vscope_handle_set_state, vscope_handle_trigger, vscope_handle_get_frame,
      vscope_handle_get_snapshot_header, vscope_handle_get_snapshot_data,
      vscope_handle_get_var_list, vscope_handle_set_channel_map,
      vscope_handle_get_channel_labels, vscope_handle_get_rt_labels,
      vscope_handle_get_rt_buffer, vscope_handle_set_rt_buffer,
      vscope_handle_set_trigger, vscope_send_timing, vscope_send_state,
      vscope_send_trigger, vscope_send_channel_map] <;>
    (try split_ifs) <;>
    simp [vscope_send_payload_length, vscope_send_error_length]

/-- Claim C1: (a) the command dispatcher always transmits exactly one frame
per dispatched command (normal response or ERROR, including unknown types);
(b) a completed frame whose received CRC byte matches the computed CRC-8
transmits exactly one frame; (c) a completed frame with a CRC mismatch
transmits nothing and resets the receiver. -/
theorem claim_C1_one_response_per_frame (cfg : Config) (fc : FCodec) :
    (∀ (s : Scope) (ty : Nat) (payload : List Nat),
      ((vscope_handle_frame cfg fc s ty payload).2).length = 1) ∧
    (∀ (s : Scope) (lastUs b nowUs : Nat),
      s.rxState = RX_DATA → s.rxExpectedLen ≤ s.rxIndex + 1 →
      (s.rxBuf.set s.rxIndex (b % 256)).getD (s.rxExpectedLen - 1) 0 =
        crc8 ((s.rxBuf.set s.rxIndex (b % 256)).take (s.rxExpectedLen - 1)) →
      ((vscope_rx_byte cfg fc s lastUs b nowUs).2).length = 1) ∧
    (∀ (s : Scope) (lastUs b nowUs : Nat),
      s.rxState = RX_DATA → s.rxExpectedLen ≤ s.rxIndex + 1 →
      (s.rxBuf.set s.rxIndex (b % 256)).getD (s.rxExpectedLen - 1) 0 ≠
        crc8 ((s.rxBuf.set s.rxIndex (b % 256)).take (s.rxExpectedLen - 1)) →
      (vscope_rx_byte cfg fc s lastUs b nowUs).2 = [] ∧
        (vscope_rx_byte cfg fc s lastUs b nowUs).1.1.rxState = RX_IDLE) := by
  refine ⟨vscope_handle_frame_out_length cfg fc, ?_, ?_⟩
  · intro s lastUs b nowUs hst hcomplete hcrc
    unfold vscope_rx_byte
    rw [if_neg (by rw [hst]; decide), if_neg (by rw [hst]; decide), if_pos hst]
    simp only [if_pos (show s.rxExpectedLen ≤ s.rxIndex + 1 from hcomplete)]
    rw [if_pos hcrc]
    exact vscope_handle_frame_out_length cfg fc _ _ _
  · intro s lastUs b nowUs hst hcomplete hcrc
    unfold vscope_rx_byte
    rw [if_neg (by rw [hst]; decide), if_neg (by rw [hst]; decide), if_pos hst]
    simp only [if_pos (show s.rxExpectedLen ≤ s.rxIndex + 1 from hcomplete)]
    rw [if_neg hcrc]
    exact ⟨rfl, rfl⟩

/-- Concrete receiver state one byte away from completing a 2-byte frame
whose first buffered byte is type 0x04 (GET_STATE). -/
def scope1 : Scope :=
  { baseScope with
    rxState := RX_DATA
    rxExpectedLen := 2
    rxIndex := 1
    rxBuf := 4 :: List.replicate 253 0 }

/-- Witness for C1: one response for a dispatched GET_STATE; one response
when the final byte carries the matching CRC (0xFE = crc8 of [0x04]); no
response and a receiver reset when it does not. -/
theorem claim_C1_witness :
    ((vscope_handle_frame defaultConfig simpleCodec baseScope 0x04 []).2).length = 1 ∧
    (scope1.rxState = RX_DATA ∧ scope1.rxExpectedLen ≤ scope1.rxIndex + 1 ∧
      ((vscope_rx_byte defaultConfig simpleCodec scope1 0 254 5).2).length = 1) ∧
    (scope1.rxState = RX_DATA ∧
      (vscope_rx_byte defaultConfig simpleCodec scope1 0 0 5).2 = [] ∧
      (vscope_rx_byte defaultConfig simpleCodec scope1 0 0 5).1.1.rxState = RX_IDLE) := by
  have h := claim_C1_one_response_per_frame defaultConfig simpleCodec
  refine ⟨h.1 baseScope 0x04 [], ⟨by decide, by decide, ?_⟩, ⟨by decide, ?_⟩⟩
  · exact h.2.1 scope1 0 254 5 (by decide) (by decide) (by decide)
  · exact h.2.2 scope1 0 0 5 (by decide) (by decide) (by decide)

/-! ### Claim C5: bad payload lengths -/

/-- Payload-length contract of each command, as stated by the spec's command
table (empty for parameterless queries, fixed sizes for setters, at most two
bytes for the list queries, N_CH bytes for SET_CHANNEL_MAP). -/
def cmdLenOK (cfg : Config) (ty len : Nat) : Prop :=
  match ty with
  | 0x01 | 0x02 | 0x04 | 0x06 | 0x07 | 0x08 | 0x0B | 0x0D | 0x11 => len = 0
  | 0x03 => len = 8
  | 0x05 => len = 1
  | 0x09 => len = 3
  | 0x0A | 0x0E => len ≤ 2
  | 0x0C => len = cfg.nCh
  | 0x0F => len = 1
  | 0x10 => len = 5
  | 0x12 => len = 6
  | _ => False

instance (cfg : Config) (ty len : Nat) : Decidable (cmdLenOK cfg ty len) := by
  unfold cmdLenOK
  split <;> infer_instance

/-- Message types understood by the dispatcher. -/
def knownTypes : List Nat :=
  [0x01, 0x02, 0x03, 0x04, 0x05, 0x06, 0x07, 0x08, 0x09, 0x0A, 0x0B, 0x0C,
   0x0D, 0x0E, 0x0F, 0x10, 0x11, 0x12]

/-- Counterexample to C5: a GET_SNAPSHOT_DATA frame with an empty payload
(length 0 ≠ 3) while no snapshot exists is answered with NOT_READY (5), not
BAD_LEN (1): the handler tests `snapshot_valid` before the length. -/
theorem claim_C5_counterexample :
    (vscope_handle_frame defaultConfig simpleCodec baseScope 0x09 []).2 =
      vscope_send_error ERR_NOT_READY ∧
    vscope_send_error ERR_NOT_READY ≠ vscope_send_error ERR_BAD_LEN ∧
    baseScope.snapValid = false := by
  refine ⟨rfl, ?_, rfl⟩
  decide

/-- Claim C5 (amended): a dispatched command frame whose payload length
violates that command's contract is answered with a single ERROR frame
carrying BAD_LEN, except that GET_SNAPSHOT_DATA checks snapshot validity
first: while no valid snapshot exists it answers NOT_READY regardless of the
payload length. -/
theorem claim_C5_bad_length_response (cfg : Config) (fc : FCodec) (s : Scope)
    (ty : Nat) (payload : List Nat) (hty : ty ∈ knownTypes)
    (hlen : ¬ cmdLenOK cfg ty payload.length) :
    (vscope_handle_frame cfg fc s ty payload).2 =
      if ty = 0x09 ∧ s.snapValid = false then vscope_send_error ERR_NOT_READY
      else vscope_send_error ERR_BAD_LEN := by
  fin_cases hty <;> simp only [cmdLenOK] at hlen <;>
    simp only [vscope_handle_frame, vscope_handle_set_timing,
      vscope_handle_set_state, vscope_handle_get_snapshot_data,
      vscope_handle_get_var_list, vscope_handle_set_channel_map,
      vscope_handle_get_rt_labels, vscope_handle_get_rt_buffer,
      vscope_handle_set_rt_buffer, vscope_handle_set_trigger] <;>
    split_ifs <;> simp_all

/-- Witness for the amended C5 theorem: SET_TIMING with a 1-byte payload is
rejected with BAD_LEN. -/
theorem claim_C5_witness :
    (0x03 ∈ knownTypes ∧ ¬ cmdLenOK defaultConfig 0x03 [7].length) ∧
      (vscope_handle_frame defaultConfig simpleCodec baseScope 0x03 [7]).2 =
        if (0x03 : Nat) = 0x09 ∧ baseScope.snapValid = false then
          vscope_send_error ERR_NOT_READY
        else vscope_send_error ERR_BAD_LEN :=
  ⟨⟨by decide, by decide⟩,
   claim_C5_bad_length_response defaultConfig simpleCodec baseScope 0x03 [7]
     (by decide) (by decide)⟩

/-! ### Claim C6: SET_CHANNEL_MAP is all-or-nothing -/

/-- Claim C6: a SET_CHANNEL_MAP frame with an N_CH-byte payload either fails
with BAD_PARAM leaving the whole state (map, frame pointers) untouched — so a
subsequent GET_CHANNEL_MAP echoes the prior map — or, when all ids are in
range, atomically installs both the new map and the new frame pointers and
echoes the new map.  No partial update occurs. -/
theorem claim_C6_set_channel_map_atomic (cfg : Config) (fc : FCodec) (s : Scope)
    (ids : List Nat) (hlen : ids.length = cfg.nCh) :
    ((∃ i < cfg.nCh, s.varCatalog.length ≤ ids.getD i 0) →
      (vscope_handle_frame cfg fc s 0x0C ids).1 = s ∧
      (vscope_handle_frame cfg fc s 0x0C ids).2 = vscope_send_error ERR_BAD_PARAM ∧
      (vscope_handle_frame cfg fc (vscope_handle_frame cfg fc s 0x0C ids).1 0x0B []).2 =
        vscope_send_payload 0x0B
          ((List.range cfg.nCh).map (fun i => s.channelMap.getD i 0))) ∧
    ((∀ i < cfg.nCh, ids.getD i 0 < s.varCatalog.length) →
      (vscope_handle_frame cfg fc s 0x0C ids).1.channelMap = ids ∧
      (vscope_handle_frame cfg fc s 0x0C ids).1.frame =
        (List.range cfg.nCh).map
          (fun i => (s.varCatalog.getD (ids.getD i 0) (FVar.default cfg)).ptr) ∧
      (vscope_handle_frame cfg fc s 0x0C ids).2 = vscope_send_payload 0x0C ids) := by
  have hne : ¬ ids.length ≠ cfg.nCh := by omega
  have hdisp : vscope_handle_frame cfg fc s 0x0C ids =
      vscope_handle_set_channel_map cfg s ids := rfl
  rw [hdisp]
  constructor
  · rintro ⟨i, hi, hge⟩
    have hall : ((List.range cfg.nCh).all
        fun j => decide (ids.getD j 0 < s.varCatalog.length)) = false := by
      rw [List.all_eq_false]
      exact ⟨i, List.mem_range.mpr hi, by simpa using hge⟩
    have hmap : vscope_handle_set_channel_map cfg s ids =
        (s, vscope_send_error ERR_BAD_PARAM) := by
      unfold vscope_handle_set_channel_map vscope_update_channel_map
      rw [if_neg hne]
      simp only [hall, Bool.false_eq_true, if_false, if_pos rfl, if_true]
    rw [hmap]
    exact ⟨rfl, rfl, rfl⟩
  · intro hforall
    have hall : ((List.range cfg.nCh).all
        fun j => decide (ids.getD j 0 < s.varCatalog.length)) = true := by
      rw [List.all_eq_true]
      intro j hj
      simpa using hforall j (List.mem_range.mp hj)
    have hids : (List.range cfg.nCh).map (fun i => ids.getD i 0) = ids := by
      rw [← hlen]
      exact range_map_getD ids 0
    have hmap : vscope_handle_set_channel_map cfg s ids =
        ({ s with
            channelMap := (List.range cfg.nCh).map (fun i => ids.getD i 0),
            frame := (List.range cfg.nCh).map
              (fun i => (s.varCatalog.getD (ids.getD i 0) (FVar.default cfg)).ptr) },
          vscope_send_channel_map cfg
            { s with
              channelMap := (List.range cfg.nCh).map (fun i => ids.getD i 0),
              frame := (List.range cfg.nCh).map
                (fun i => (s.varCatalog.getD (ids.getD i 0) (FVar.default cfg)).ptr) }
            0x0C) := by
      unfold vscope_handle_set_channel_map vscope_update_channel_map
      rw [if_neg hne]
      simp only [hall, if_true, Bool.true_eq_false, if_false]
    rw [hmap]
    refine ⟨hids, rfl, ?_⟩
    unfold vscope_send_channel_map
    simp only [hids]

/-- Witness for C6: rejecting SET_CHANNEL_MAP [9,0,0,0,0] (only five
variables are registered) leaves the state untouched and a following
GET_CHANNEL_MAP echoes the prior map. -/
theorem claim_C6_witness :
    ([9, 0, 0, 0, 0] : List Nat).length = defaultConfig.nCh ∧
    ((vscope_handle_frame defaultConfig simpleCodec baseScope 0x0C [9, 0, 0, 0, 0]).1 =
        baseScope ∧
      (vscope_handle_frame defaultConfig simpleCodec baseScope 0x0C [9, 0, 0, 0, 0]).2 =
        vscope_send_error ERR_BAD_PARAM ∧
      (vscope_handle_frame defaultConfig simpleCodec
          (vscope_handle_frame defaultConfig simpleCodec baseScope 0x0C
            [9, 0, 0, 0, 0]).1 0x0B []).2 =
        vscope_send_payload 0x0B
          ((List.range defaultConfig.nCh).map
            (fun i => baseScope.channelMap.getD i 0))) :=
  ⟨by decide,
   (claim_C6_set_channel_map_atomic defaultConfig simpleCodec baseScope
      [9, 0, 0, 0, 0] (by decide)).1 ⟨0, by decide, by decide⟩⟩

/-! Preservation lemmas for the tick path. -/

theorem check_trigger_fields (s : Scope) :
    (vscope_check_trigger s).state = s.state ∧
    (vscope_check_trigger s).divider = s.divider ∧
    (vscope_check_trigger s).preTrig = s.preTrig ∧
    (vscope_check_trigger s).acqTime = s.acqTime ∧
    (vscope_check_trigger s).index = s.index ∧
    (vscope_check_trigger s).firstElement = s.firstElement ∧
    (vscope_check_trigger s).buffer = s.buffer ∧
    (vscope_check_trigger s).snapValid = s.snapValid ∧
    (vscope_check_trigger s).runIndex = s.runIndex ∧
    (vscope_check_trigger s).dividerTicks = s.dividerTicks ∧
    (vscope_check_trigger s).mem = s.mem ∧
    (vscope_check_trigger s).frame = s.frame ∧
    (vscope_check_trigger s).channelMap = s.channelMap ∧
    (vscope_check_trigger s).varCatalog = s.varCatalog ∧
    (vscope_check_trigger s).trigThreshold = s.trigThreshold ∧
    (vscope_check_trigger s).trigChannel = s.trigChannel ∧
    (vscope_check_trigger s).trigMode = s.trigMode ∧
    (vscope_check_trigger s).rtValues = s.rtValues ∧
    (vscope_check_trigger s).rtNames = s.rtNames ∧
    (vscope_check_trigger s).snapMeta = s.snapMeta ∧
    (s.request = ACQUIRING → (vscope_check_trigger s).request = ACQUIRING) ∧
    (s.state ≠ RUNNING → (vscope_check_trigger s).request = s.request) := by
  unfold vscope_check_trigger vscopeTrigger
  split_ifs <;> simp_all <;> (try (split_ifs <;> simp_all))

theorem vscope_acquire_switch_preserves_config (cfg : Config) (s : Scope) :
    (vscope_acquire_switch cfg s).divider = s.divider ∧
    (vscope_acquire_switch cfg s).preTrig = s.preTrig ∧
    (vscope_acquire_switch cfg s).acqTime = s.acqTime ∧
    (vscope_acquire_switch cfg s).trigThreshold = s.trigThreshold ∧
    (vscope_acquire_switch cfg s).trigChannel = s.trigChannel ∧
    (vscope_acquire_switch cfg s).trigMode = s.trigMode ∧
    (vscope_acquire_switch cfg s).channelMap = s.channelMap ∧
    (vscope_acquire_switch cfg s).frame = s.frame ∧
    (vscope_acquire_switch cfg s).varCatalog = s.varCatalog ∧
    (vscope_acquire_switch cfg s).rtValues = s.rtValues ∧
    (vscope_acquire_switch cfg s).rtNames = s.rtNames ∧
    (vscope_acquire_switch cfg s).mem = s.mem := by
  unfold vscope_acquire_switch vscope_save_frame vscope_capture_snapshot_meta
  split_ifs <;> (try simp_all) <;> (try (split_ifs <;> (try simp_all)))

theorem vscopeAcquire_preserves_config (cfg : Config) (s : Scope) :
    (vscopeAcquire cfg s).divider = s.divider ∧
    (vscopeAcquire cfg s).preTrig = s.preTrig ∧
    (vscopeAcquire cfg s).acqTime = s.acqTime ∧
    (vscopeAcquire cfg s).trigThreshold = s.trigThreshold ∧
    (vscopeAcquire cfg s).trigChannel = s.trigChannel ∧
    (vscopeAcquire cfg s).trigMode = s.trigMode ∧
    (vscopeAcquire cfg s).channelMap = s.channelMap ∧
    (vscopeAcquire cfg s).frame = s.frame ∧
    (vscopeAcquire cfg s).varCatalog = s.varCatalog ∧
    (vscopeAcquire cfg s).rtValues = s.rtValues ∧
    (vscopeAcquire cfg s).rtNames = s.rtNames ∧
    (vscopeAcquire cfg s).mem = s.mem := by
  unfold vscopeAcquire
  split_ifs with h
  · exact ⟨rfl, rfl, rfl, rfl, rfl, rfl, rfl, rfl, rfl, rfl, rfl, rfl⟩
  · obtain ⟨w1, w2, w3, w4, w5, w6, w7, w8, w9, w10, w11, w12⟩ :=
      vscope_acquire_switch_preserves_config cfg
        (vscope_check_trigger { s with dividerTicks := 0 })
    obtain ⟨-, c2, c3, c4, -, -, -, -, -, -, c11, c12, c13, c14, c15, c16,
      c17, c18, c19, -, -, -⟩ := check_trigger_fields { s with dividerTicks := 0 }
    exact ⟨by rw [w1, c2], by rw [w2, c3], by rw [w3, c4], by rw [w4, c15],
      by rw [w5, c16], by rw [w6, c17], by rw [w7, c13], by rw [w8, c12],
      by rw [w9, c14], by rw [w10, c18], by rw [w11, c19], by rw [w12, c11]⟩

/-! Preservation lemmas for the command path. -/

theorem vscope_handle_frame_preserves_acq (cfg : Config) (fc : FCodec) (s : Scope)
    (ty : Nat) (payload : List Nat) :
    (vscope_handle_frame cfg fc s ty payload).1.index = s.index ∧
    (vscope_handle_frame cfg fc s ty payload).1.firstElement = s.firstElement ∧
    (vscope_handle_frame cfg fc s ty payload).1.buffer = s.buffer ∧
    (vscope_handle_frame cfg fc s ty payload).1.varCatalog = s.varCatalog ∧
    (vscope_handle_frame cfg fc s ty payload).1.rtValues = s.rtValues ∧
    (vscope_handle_frame cfg fc s ty payload).1.rtNames = s.rtNames := by
  simp only [vscope_handle_frame, vscope_handle_get_info, vscope_handle_set_timing,
    vscope_handle_set_state, vscope_handle_trigger, vscope_handle_get_frame,
    vscope_handle_get_snapshot_header, vscope_handle_get_snapshot_data,
    vscope_handle_get_var_list, vscope_handle_set_channel_map,
    vscope_handle_get_channel_labels, vscope_handle_get_rt_labels,
    vscope_handle_get_rt_buffer, vscope_handle_set_rt_buffer,
    vscope_handle_set_trigger, vscopeTrigger, vscope_update_channel_map]
  split <;> (try split_ifs) <;> simp_all

theorem vscope_handle_frame_map_frame (cfg : Config) (fc : FCodec) (s : Scope)
    (ty : Nat) (payload : List Nat) :
    ((vscope_handle_frame cfg fc s ty payload).1.channelMap = s.channelMap ∧
     (vscope_handle_frame cfg fc s ty payload).1.frame = s.frame) ∨
    ((∀ i < cfg.nCh, payload.getD i 0 < s.varCatalog.length) ∧
     (vscope_handle_frame cfg fc s ty payload).1.channelMap =
       (List.range cfg.nCh).map (fun i => payload.getD i 0) ∧
     (vscope_handle_frame cfg fc s ty payload).1.frame =
       (List.range cfg.nCh).map
         (fun i => (s.varCatalog.getD (payload.getD i 0) (FVar.default cfg)).ptr)) := by
  simp only [vscope_handle_frame, vscope_handle_get_info, vscope_handle_set_timing,
    vscope_handle_set_state, vscope_handle_trigger, vscope_handle_get_frame,
    vscope_handle_get_snapshot_header, vscope_handle_get_snapshot_data,
    vscope_handle_get_var_list, vscope_handle_set_channel_map,
    vscope_handle_get_channel_labels, vscope_handle_get_rt_labels,
    vscope_handle_get_rt_buffer, vscope_handle_set_rt_buffer,
    vscope_handle_set_trigger, vscopeTrigger, vscope_update_channel_map]
  split <;> (try split_ifs) <;>
    first
      | (left; exact ⟨rfl, rfl⟩)
      | (right
         refine ⟨?_, rfl, rfl⟩
         intro i hi
         simp_all [List.all_eq_true, List.mem_range])

theorem vscope_rx_byte_preserves_acq (cfg : Config) (fc : FCodec) (s : Scope)
    (lastUs b nowUs : Nat) :
    (vscope_rx_byte cfg fc s lastUs b nowUs).1.1.index = s.index ∧
    (vscope_rx_byte cfg fc s lastUs b nowUs).1.1.firstElement = s.firstElement ∧
    (vscope_rx_byte cfg fc s lastUs b nowUs).1.1.buffer = s.buffer ∧
    (vscope_rx_byte cfg fc s lastUs b nowUs).1.1.varCatalog = s.varCatalog := by
  obtain ⟨hi, hf, hb, hv, -, -⟩ := vscope_handle_frame_preserves_acq cfg fc
    { s with rxBuf := s.rxBuf.set s.rxIndex (b % 256), rxIndex := s.rxIndex + 1 }
    ((s.rxBuf.set s.rxIndex (b % 256)).getD 0 0)
    (((s.rxBuf.set s.rxIndex (b % 256)).drop 1).take (s.rxExpectedLen - 2))
  simp only [vscope_rx_byte, vscope_reset_rx]
  split_ifs <;> simp_all

theorem vscope_feed_loop_preserves_acq (cfg : Config) (fc : FCodec)
    (data : List Nat) :
    ∀ (s : Scope) (lastUs nowUs : Nat),
    (vscope_feed_loop cfg fc s lastUs data nowUs).1.1.index = s.index ∧
    (vscope_feed_loop cfg fc s lastUs data nowUs).1.1.firstElement = s.firstElement ∧
    (vscope_feed_loop cfg fc s lastUs data nowUs).1.1.buffer = s.buffer ∧
    (vscope_feed_loop cfg fc s lastUs data nowUs).1.1.varCatalog = s.varCatalog := by
  induction data with
  | nil => exact fun s lastUs nowUs => ⟨rfl, rfl, rfl, rfl⟩
  | cons b rest ih =>
      intro s lastUs nowUs
      obtain ⟨h1, h2, h3, h4⟩ := vscope_rx_byte_preserves_acq cfg fc s lastUs b nowUs
      obtain ⟨g1, g2, g3, g4⟩ := ih (vscope_rx_byte cfg fc s lastUs b nowUs).1.1
        (vscope_rx_byte cfg fc s lastUs b nowUs).1.2 nowUs
      exact ⟨g1.trans h1, g2.trans h2, g3.trans h3, g4.trans h4⟩

theorem vscopeFeed_preserves_acq (cfg : Config) (fc : FCodec) (s : Scope)
    (lastUs : Nat) (data : List Nat) (nowUs : Nat) :
    (vscopeFeed cfg fc s lastUs data nowUs).1.1.index = s.index ∧
    (vscopeFeed cfg fc s lastUs data nowUs).1.1.firstElement = s.firstElement ∧
    (vscopeFeed cfg fc s lastUs data nowUs).1.1.buffer = s.buffer ∧
    (vscopeFeed cfg fc s lastUs data nowUs).1.1.varCatalog = s.varCatalog := by
  unfold vscopeFeed
  split_ifs with h1 h2
  · exact ⟨rfl, rfl, rfl, rfl⟩
  · exact vscope_feed_loop_preserves_acq cfg fc data (vscope_reset_rx s) lastUs nowUs
  · exact vscope_feed_loop_preserves_acq cfg fc data s lastUs nowUs

theorem vscope_acquire_switch_idx_inv (cfg : Config) (s : Scope)
    (hbuf : 0 < cfg.buf) (hidx : s.index < cfg.buf)
    (hfst : s.firstElement < cfg.buf) :
    (vscope_acquire_switch cfg s).index < cfg.buf ∧
    (vscope_acquire_switch cfg s).firstElement < cfg.buf := by
  unfold vscope_acquire_switch vscope_save_frame vscope_capture_snapshot_meta
  split_ifs <;> (try simp_all) <;> (try (split_ifs <;> simp_all))

theorem vscopeAcquire_idx_inv (cfg : Config) (s : Scope) (hbuf : 0 < cfg.buf)
    (hidx : s.index < cfg.buf) (hfst : s.firstElement < cfg.buf) :
    (vscopeAcquire cfg s).index < cfg.buf ∧
    (vscopeAcquire cfg s).firstElement < cfg.buf := by
  unfold vscopeAcquire
  split_ifs with h
  · exact ⟨hidx, hfst⟩
  · obtain ⟨-, -, -, -, c5, c6, -, -, -, -, -, -, -, -, -, -, -, -, -, -, -, -⟩ :=
      check_trigger_fields { s with dividerTicks := 0 }
    exact vscope_acquire_switch_idx_inv cfg _ hbuf (by rw [c5]; exact hidx)
      (by rw [c6]; exact hfst)

theorem stepEv_idx_inv (cfg : Config) (fc : FCodec) (p : Scope × Nat) (e : Ev)
    (hbuf : 0 < cfg.buf) (hidx : p.1.index < cfg.buf)
    (hfst : p.1.firstElement < cfg.buf) :
    (stepEv cfg fc p e).1.index < cfg.buf ∧
    (stepEv cfg fc p e).1.firstElement < cfg.buf := by
  cases e with
  | tick env => exact vscopeAcquire_idx_inv cfg _ hbuf hidx hfst
  | cmd ty payload =>
      obtain ⟨h1, h2, -, -, -, -⟩ := vscope_handle_frame_preserves_acq cfg fc p.1 ty payload
      exact ⟨h1 ▸ hidx, h2 ▸ hfst⟩
  | feed bytes nowUs =>
      obtain ⟨h1, h2, -, -⟩ := vscopeFeed_preserves_acq cfg fc p.1 p.2 bytes nowUs
      exact ⟨h1 ▸ hidx, h2 ▸ hfst⟩
  | trig =>
      unfold stepEv vscopeTrigger
      split_ifs <;> exact ⟨hidx, hfst⟩

theorem runEv_idx_inv (cfg : Config) (fc : FCodec) (events : List Ev) :
    ∀ p : Scope × Nat, 0 < cfg.buf → p.1.index < cfg.buf →
    p.1.firstElement < cfg.buf →
    (runEv cfg fc p events).1.index < cfg.buf ∧
    (runEv cfg fc p events).1.firstElement < cfg.buf := by
  induction events with
  | nil => exact fun p _ hidx hfst => ⟨hidx, hfst⟩
  | cons e es ih =>
      intro p hbuf hidx hfst
      obtain ⟨h1, h2⟩ := stepEv_idx_inv cfg fc p e hbuf hidx hfst
      exact ih (stepEv cfg fc p e) hbuf h1 h2

/-! ### Claim C7: capture-buffer index invariants -/

/-- Claim C7: after init, any interleaving of ticks, dispatched commands, fed
bytes and manual triggers keeps the write index `w` and the first-element
index `f` inside `[0, BUF)`; moreover `w` changes at a tick only when the
state is RUNNING or ACQUIRING (in HALTED it is reset to 0, otherwise it is
untouched), and no dispatched command ever changes `w`. -/
theorem claim_C7_index_invariant (cfg : Config) (fc : FCodec) (r : RegState)
    (dn : Option (List Nat)) (khz : Nat) (m : Nat → ℚ) (lastUs : Nat)
    (events : List Ev) (hbuf : 0 < cfg.buf) :
    ((runEv cfg fc (vscopeInit cfg r dn khz m, lastUs) events).1.index < cfg.buf ∧
     (runEv cfg fc (vscopeInit cfg r dn khz m, lastUs) events).1.firstElement < cfg.buf) ∧
    (∀ s : Scope, s.state ≠ RUNNING → s.state ≠ ACQUIRING →
      (vscopeAcquire cfg s).index = s.index ∨ (vscopeAcquire cfg s).index = 0) ∧
    (∀ (s : Scope) (ty : Nat) (payload : List Nat),
      (vscope_handle_frame cfg fc s ty payload).1.index = s.index) := by
  refine ⟨?_, ?_, ?_⟩
  · exact runEv_idx_inv cfg fc events (vscopeInit cfg r dn khz m, lastUs) hbuf
      (by simpa [vscopeInit] using hbuf) (by simpa [vscopeInit] using hbuf)
  · intro s hrun hacq
    unfold vscopeAcquire
    split_ifs with h
    · exact Or.inl rfl
    · obtain ⟨c1, -, -, -, c5, -, -, -, -, -, -, -, -, -, -, -, -, -, -, -, -, -⟩ :=
        check_trigger_fields { s with dividerTicks := 0 }
      unfold vscope_acquire_switch
      by_cases hH : (vscope_check_trigger { s with dividerTicks := 0 }).state = HALTED
      · rw [if_pos hH]
        refine Or.inr ?_
        have hb : ∀ u : Scope,
            (if u.request = RUNNING then
              { u with state := RUNNING, snapValid := false } else u).index = u.index := by
          intro u
          split_ifs <;> rfl
        exact hb { vscope_check_trigger { s with dividerTicks := 0 } with index := 0 }
      · have hR : ¬ (vscope_check_trigger { s with dividerTicks := 0 }).state = RUNNING := by
          rw [c1]; exact hrun
        have hA : ¬ (vscope_check_trigger { s with dividerTicks := 0 }).state = ACQUIRING := by
          rw [c1]; exact hacq
        rw [if_neg hH, if_neg hR, if_neg hA]
        exact Or.inl c5
  · intro s ty payload
    exact (vscope_handle_frame_preserves_acq cfg fc s ty payload).1

/-- Witness for C7: a concrete run (SET_STATE(RUNNING), tick, manual
trigger, tick) under the default configuration. -/
theorem claim_C7_witness :
    0 < defaultConfig.buf ∧
    (((runEv defaultConfig simpleCodec
        (vscopeInit defaultConfig regA none 16 (fun _ => 0), 0)
        [Ev.cmd 0x05 [1], Ev.tick (fun _ => 1), Ev.trig,
         Ev.tick (fun _ => 2)]).1.index < defaultConfig.buf ∧
      (runEv defaultConfig simpleCodec
        (vscopeInit defaultConfig regA none 16 (fun _ => 0), 0)
        [Ev.cmd 0x05 [1], Ev.tick (fun _ => 1), Ev.trig,
         Ev.tick (fun _ => 2)]).1.firstElement < defaultConfig.buf) ∧
     (∀ s : Scope, s.state ≠ RUNNING → s.state ≠ ACQUIRING →
       (vscopeAcquire defaultConfig s).index = s.index ∨
         (vscopeAcquire defaultConfig s).index = 0) ∧
     (∀ (s : Scope) (ty : Nat) (payload : List Nat),
       (vscope_handle_frame defaultConfig simpleCodec s ty payload).1.index =
         s.index)) :=
  ⟨by decide,
   claim_C7_index_invariant defaultConfig simpleCodec regA none 16 (fun _ => 0) 0
     [Ev.cmd 0x05 [1], Ev.tick (fun _ => 1), Ev.trig, Ev.tick (fun _ => 2)]
     (by decide)⟩

theorem ticksN_preserves_config (cfg : Config) (envs : Nat → Nat → ℚ)
    (s : Scope) : ∀ n : Nat,
    (ticksN cfg envs s n).divider = s.divider ∧
    (ticksN cfg envs s n).preTrig = s.preTrig ∧
    (ticksN cfg envs s n).acqTime = s.acqTime ∧
    (ticksN cfg envs s n).trigThreshold = s.trigThreshold ∧
    (ticksN cfg envs s n).trigChannel = s.trigChannel ∧
    (ticksN cfg envs s n).trigMode = s.trigMode ∧
    (ticksN cfg envs s n).channelMap = s.channelMap ∧
    (ticksN cfg envs s n).frame = s.frame ∧
    (ticksN cfg envs s n).varCatalog = s.varCatalog ∧
    (ticksN cfg envs s n).rtValues = s.rtValues ∧
    (ticksN cfg envs s n).rtNames = s.rtNames := by
  intro n
  induction n with
  | zero => exact ⟨rfl, rfl, rfl, rfl, rfl, rfl, rfl, rfl, rfl, rfl, rfl⟩
  | succ k ih =>
      obtain ⟨i1, i2, i3, i4, i5, i6, i7, i8, i9, i10, i11⟩ := ih
      obtain ⟨a1, a2, a3, a4, a5, a6, a7, a8, a9, a10, a11, -⟩ :=
        vscopeAcquire_preserves_config cfg
          { ticksN cfg envs s k with mem := envs k }
      exact ⟨a1.trans i1, a2.trans i2, a3.trans i3, a4.trans i4, a5.trans i5,
        a6.trans i6, a7.trans i7, a8.trans i8, a9.trans i9, a10.trans i10,
        a11.trans i11⟩

/-! ### Claim C8: set/get round trips survive intervening ticks -/

/-- Claim C8: an accepted SET_TIMING, SET_TRIGGER or SET_CHANNEL_MAP followed
by any number of ticks and then the matching GET returns exactly what was
set: the same (divider, pre_trig) encoding, the same threshold bit pattern
with channel and mode, and the same N_CH map bytes. -/
theorem claim_C8_set_get_roundtrip (cfg : Config) (fc : FCodec) :
    (∀ (s : Scope) (payload : List Nat) (n : Nat) (envs : Nat → Nat → ℚ),
      payload.length = 8 → s.state = HALTED → readU32 payload ≠ 0 →
      readU32 (payload.drop 4) ≤ cfg.buf →
      (vscope_handle_frame cfg fc
        (ticksN cfg envs (vscope_handle_frame cfg fc s 0x03 payload).1 n)
        0x02 []).2 =
      vscope_send_payload 0x02
        (writeU32 (readU32 payload) ++ writeU32 (readU32 (payload.drop 4)))) ∧
    (∀ (s : Scope) (payload : List Nat) (n : Nat) (envs : Nat → Nat → ℚ),
      payload.length = 6 → payload.getD 4 0 < cfg.nCh →
      payload.getD 5 0 ≤ TRG_BOTH →
      fc.enc (fc.dec (payload.take 4)) = payload.take 4 →
      (vscope_handle_frame cfg fc
        (ticksN cfg envs (vscope_handle_frame cfg fc s 0x12 payload).1 n)
        0x11 []).2 =
      vscope_send_payload 0x11
        (payload.take 4 ++ [payload.getD 4 0, payload.getD 5 0])) ∧
    (∀ (s : Scope) (ids : List Nat) (n : Nat) (envs : Nat → Nat → ℚ),
      ids.length = cfg.nCh →
      (∀ i < cfg.nCh, ids.getD i 0 < s.varCatalog.length) →
      (vscope_handle_frame cfg fc
        (ticksN cfg envs (vscope_handle_frame cfg fc s 0x0C ids).1 n)
        0x0B []).2 =
      vscope_send_payload 0x0B ids) := by
  refine ⟨?_, ?_, ?_⟩
  · intro s payload n envs hlen hstate hd hp
    have hstep : (vscope_handle_frame cfg fc s 0x03 payload).1 =
        { s with divider := readU32 payload,
                 preTrig := readU32 (payload.drop 4),
                 acqTime := cfg.buf - readU32 (payload.drop 4) } := by
      show (vscope_handle_set_timing cfg s payload).1 = _
      unfold vscope_handle_set_timing
      rw [if_neg (by omega), if_neg (by push_neg; exact ⟨hd, hp⟩),
        if_neg (by simp [hstate])]
    obtain ⟨t1, t2, -, -, -, -, -, -, -, -, -⟩ :=
      ticksN_preserves_config cfg envs (vscope_handle_frame cfg fc s 0x03 payload).1 n
    show vscope_send_timing _ 0x02 = _
    unfold vscope_send_timing
    rw [t1, t2, hstep]
  · intro s payload n envs hlen hch hmode henc
    have hstep : (vscope_handle_frame cfg fc s 0x12 payload).1 =
        { s with trigThreshold := fc.dec (payload.take 4),
                 trigChannel := payload.getD 4 0,
                 trigMode := payload.getD 5 0, trigInvalid := true } := by
      show (vscope_handle_set_trigger cfg fc s payload).1 = _
      unfold vscope_handle_set_trigger readF32
      rw [if_neg (by omega), if_neg (by push_neg; exact ⟨hch, hmode⟩)]
    obtain ⟨-, -, -, t4, t5, t6, -, -, -, -, -⟩ :=
      ticksN_preserves_config cfg envs (vscope_handle_frame cfg fc s 0x12 payload).1 n
    show vscope_send_trigger fc _ 0x11 = _
    unfold vscope_send_trigger
    rw [t4, t5, t6, hstep]
    simp only [henc]
    have hm : payload.getD 5 0 % 256 = payload.getD 5 0 :=
      Nat.mod_eq_of_lt (by unfold TRG_BOTH at hmode; omega)
    rw [hm]
  · intro s ids n envs hlen hvalid
    have hall : ((List.range cfg.nCh).all
        fun j => decide (ids.getD j 0 < s.varCatalog.length)) = true := by
      rw [List.all_eq_true]
      intro j hj
      simpa using hvalid j (List.mem_range.mp hj)
    have hids : (List.range cfg.nCh).map (fun i => ids.getD i 0) = ids := by
      rw [← hlen]
      exact range_map_getD ids 0
    have hstep : (vscope_handle_frame cfg fc s 0x0C ids).1.channelMap = ids := by
      show (vscope_handle_set_channel_map cfg s ids).1.channelMap = ids
      unfold vscope_handle_set_channel_map vscope_update_channel_map
      rw [if_neg (by omega)]
      simp only [hall, if_true, Bool.true_eq_false, if_false]
      exact hids
    obtain ⟨-, -, -, -, -, -, t7, -, -, -, -⟩ :=
      ticksN_preserves_config cfg envs (vscope_handle_frame cfg fc s 0x0C ids).1 n
    show vscope_send_channel_map cfg _ 0x0B = _
    unfold vscope_send_channel_map
    rw [t7, hstep, hids]

/-- Witness for C8: concrete SET/GET round trips (one tick in between) on the
post-init state. -/
theorem claim_C8_witness :
    (baseScope.state = HALTED ∧ readU32 [2, 0, 0, 0, 10, 0, 0, 0] ≠ 0 ∧
      (vscope_handle_frame defaultConfig simpleCodec
        (ticksN defaultConfig (fun _ _ => 0)
          (vscope_handle_frame defaultConfig simpleCodec baseScope 0x03
            [2, 0, 0, 0, 10, 0, 0, 0]).1 1) 0x02 []).2 =
      vscope_send_payload 0x02
        (writeU32 (readU32 [2, 0, 0, 0, 10, 0, 0, 0]) ++
          writeU32 (readU32 (List.drop 4 [2, 0, 0, 0, 10, 0, 0, 0])))) ∧
    ((vscope_handle_frame defaultConfig simpleCodec
        (ticksN defaultConfig (fun _ _ => 0)
          (vscope_handle_frame defaultConfig simpleCodec baseScope 0x12
            [7, 0, 0, 0, 1, 3]).1 1) 0x11 []).2 =
      vscope_send_payload 0x11
        (List.take 4 [7, 0, 0, 0, 1, 3] ++
          [List.getD [7, 0, 0, 0, 1, 3] 4 0, List.getD [7, 0, 0, 0, 1, 3] 5 0])) ∧
    ((vscope_handle_frame defaultConfig simpleCodec
        (ticksN defaultConfig (fun _ _ => 0)
          (vscope_handle_frame defaultConfig simpleCodec baseScope 0x0C
            [4, 3, 2, 1, 0]).1 1) 0x0B []).2 =
      vscope_send_payload 0x0B [4, 3, 2, 1, 0]) := by
  have h := claim_C8_set_get_roundtrip defaultConfig simpleCodec
  refine ⟨⟨rfl, by decide, ?_⟩, ?_, ?_⟩
  · exact h.1 baseScope [2, 0, 0, 0, 10, 0, 0, 0] 1 (fun _ _ => 0) (by decide)
      rfl (by decide) (by decide)
  · exact h.2.1 baseScope [7, 0, 0, 0, 1, 3] 1 (fun _ _ => 0) (by decide)
      (by decide) (by decide) (by decide)
  · exact h.2.2 baseScope [4, 3, 2, 1, 0] 1 (fun _ _ => 0) (by decide)
      (by decide)

/-! ### Claim C9: framing invariance -/

theorem vscope_rx_byte_time_invariant (cfg : Config) (fc : FCodec) (s : Scope)
    (l1 l2 b n1 n2 : Nat) :
    (vscope_rx_byte cfg fc s l1 b n1).1.1 = (vscope_rx_byte cfg fc s l2 b n2).1.1 ∧
    (vscope_rx_byte cfg fc s l1 b n1).2 = (vscope_rx_byte cfg fc s l2 b n2).2 := by
  simp only [vscope_rx_byte]
  split_ifs <;> exact ⟨rfl, rfl⟩

theorem vscope_feed_loop_time_invariant (cfg : Config) (fc : FCodec)
    (data : List Nat) : ∀ (s : Scope) (l1 l2 n1 n2 : Nat),
    (vscope_feed_loop cfg fc s l1 data n1).1.1 =
      (vscope_feed_loop cfg fc s l2 data n2).1.1 ∧
    (vscope_feed_loop cfg fc s l1 data n1).2 =
      (vscope_feed_loop cfg fc s l2 data n2).2 := by
  induction data with
  | nil => exact fun s l1 l2 n1 n2 => ⟨rfl, rfl⟩
  | cons b rest ih =>
      intro s l1 l2 n1 n2
      obtain ⟨hs, ho⟩ := vscope_rx_byte_time_invariant cfg fc s l1 l2 b n1 n2
      obtain ⟨gs, go⟩ := ih (vscope_rx_byte cfg fc s l1 b n1).1.1
        (vscope_rx_byte cfg fc s l1 b n1).1.2
        (vscope_rx_byte cfg fc s l2 b n2).1.2 n1 n2
      constructor
      · show (vscope_feed_loop cfg fc (vscope_rx_byte cfg fc s l1 b n1).1.1
            (vscope_rx_byte cfg fc s l1 b n1).1.2 rest n1).1.1 =
          (vscope_feed_loop cfg fc (vscope_rx_byte cfg fc s l2 b n2).1.1
            (vscope_rx_byte cfg fc s l2 b n2).1.2 rest n2).1.1
        rw [← hs]
        exact gs
      · show (vscope_rx_byte cfg fc s l1 b n1).2 ++
            (vscope_feed_loop cfg fc (vscope_rx_byte cfg fc s l1 b n1).1.1
              (vscope_rx_byte cfg fc s l1 b n1).1.2 rest n1).2 =
          (vscope_rx_byte cfg fc s l2 b n2).2 ++
            (vscope_feed_loop cfg fc (vscope_rx_byte cfg fc s l2 b n2).1.1
              (vscope_rx_byte cfg fc s l2 b n2).1.2 rest n2).2
        rw [← hs, ho, go]

theorem vscope_feed_loop_append (cfg : Config) (fc : FCodec) (a : List Nat) :
    ∀ (b : List Nat) (s : Scope) (l n : Nat),
    vscope_feed_loop cfg fc s l (a ++ b) n =
      ((vscope_feed_loop cfg fc (vscope_feed_loop cfg fc s l a n).1.1
          (vscope_feed_loop cfg fc s l a n).1.2 b n).1,
       (vscope_feed_loop cfg fc s l a n).2 ++
         (vscope_feed_loop cfg fc (vscope_feed_loop cfg fc s l a n).1.1
           (vscope_feed_loop cfg fc s l a n).1.2 b n).2) := by
  induction a with
  | nil => intro b s l n; rfl
  | cons x rest ih =>
      intro b s l n
      show ((vscope_feed_loop cfg fc (vscope_rx_byte cfg fc s l x n).1.1
              (vscope_rx_byte cfg fc s l x n).1.2 (rest ++ b) n).1,
            (vscope_rx_byte cfg fc s l x n).2 ++
              (vscope_feed_loop cfg fc (vscope_rx_byte cfg fc s l x n).1.1
                (vscope_rx_byte cfg fc s l x n).1.2 (rest ++ b) n).2) = _
      rw [ih b]
      have hstep : vscope_feed_loop cfg fc s l (x :: rest) n =
          ((vscope_feed_loop cfg fc (vscope_rx_byte cfg fc s l x n).1.1
              (vscope_rx_byte cfg fc s l x n).1.2 rest n).1,
           (vscope_rx_byte cfg fc s l x n).2 ++
             (vscope_feed_loop cfg fc (vscope_rx_byte cfg fc s l x n).1.1
               (vscope_rx_byte cfg fc s l x n).1.2 rest n).2) := rfl
      rw [hstep]
      simp [List.append_assoc]

theorem vscopeFeed_no_reset (cfg : Config) (fc : FCodec) (s : Scope)
    (l : Nat) (data : List Nat) (n : Nat) (hd : data ≠ [])
    (h : s.rxState = RX_IDLE ∨ u32sub n l ≤ cfg.timeoutUs) :
    vscopeFeed cfg fc s l data n = vscope_feed_loop cfg fc s l data n := by
  unfold vscopeFeed
  rw [if_neg hd, if_neg ?hc]
  case hc =>
    rintro ⟨h1, h2⟩
    rcases h with h | h
    · exact h1 h
    · omega

/-- Claim C9: (i) bytes without SYNC fed in IDLE leave the receiver (indeed
the whole state) untouched and emit nothing; (ii) splitting a byte sequence
into two feed calls whose timestamps stay within FRAME_TIMEOUT_US of the
last received byte yields the same final state and the same transmitted
frames as one call; (iii) a feed call arriving more than FRAME_TIMEOUT_US
after the last byte of a partial frame resets the receiver to IDLE before
processing. -/
theorem claim_C9_framing (cfg : Config) (fc : FCodec) :
    (∀ (s : Scope) (l n : Nat) (data : List Nat), s.rxState = RX_IDLE →
      (∀ b ∈ data, b % 256 ≠ syncByte) →
      vscopeFeed cfg fc s l data n = ((s, l), [])) ∧
    (∀ (s : Scope) (l n1 n2 n : Nat) (a b : List Nat), a ≠ [] → b ≠ [] →
      (s.rxState = RX_IDLE ∨ u32sub n1 l ≤ cfg.timeoutUs) →
      (s.rxState = RX_IDLE ∨ u32sub n l ≤ cfg.timeoutUs) →
      ((vscopeFeed cfg fc s l a n1).1.1.rxState = RX_IDLE ∨
        u32sub n2 (vscopeFeed cfg fc s l a n1).1.2 ≤ cfg.timeoutUs) →
      (vscopeFeed cfg fc (vscopeFeed cfg fc s l a n1).1.1
          (vscopeFeed cfg fc s l a n1).1.2 b n2).1.1 =
        (vscopeFeed cfg fc s l (a ++ b) n).1.1 ∧
      (vscopeFeed cfg fc s l a n1).2 ++
          (vscopeFeed cfg fc (vscopeFeed cfg fc s l a n1).1.1
            (vscopeFeed cfg fc s l a n1).1.2 b n2).2 =
        (vscopeFeed cfg fc s l (a ++ b) n).2) ∧
    (∀ (s : Scope) (l n : Nat) (data : List Nat), data ≠ [] →
      s.rxState ≠ RX_IDLE → cfg.timeoutUs < u32sub n l →
      vscopeFeed cfg fc s l data n =
        vscope_feed_loop cfg fc (vscope_reset_rx s) l data n ∧
      (vscope_reset_rx s).rxState = RX_IDLE) := by
  refine ⟨?_, ?_, ?_⟩
  · intro s l n data hidle hns
    rcases eq_or_ne data [] with rfl | hd
    · rfl
    rw [vscopeFeed_no_reset cfg fc s l data n hd (Or.inl hidle)]
    clear hd
    induction data generalizing s l with
    | nil => rfl
    | cons b rest ih =>
        have hb : vscope_rx_byte cfg fc s l b n = ((s, l), []) := by
          unfold vscope_rx_byte
          rw [if_pos hidle, if_neg (hns b (by simp))]
        have hstep : vscope_feed_loop cfg fc s l (b :: rest) n =
            ((vscope_feed_loop cfg fc (vscope_rx_byte cfg fc s l b n).1.1
                (vscope_rx_byte cfg fc s l b n).1.2 rest n).1,
             (vscope_rx_byte cfg fc s l b n).2 ++
               (vscope_feed_loop cfg fc (vscope_rx_byte cfg fc s l b n).1.1
                 (vscope_rx_byte cfg fc s l b n).1.2 rest n).2) := rfl
        rw [hstep]
        simp only [hb]
        simp [ih s l hidle (fun x hx => hns x (List.mem_cons_of_mem b hx))]
  · intro s l n1 n2 n a b ha hb h1 hn h2
    have e1 : vscopeFeed cfg fc s l a n1 = vscope_feed_loop cfg fc s l a n1 :=
      vscopeFeed_no_reset cfg fc s l a n1 ha h1
    rw [e1] at h2
    have e2 : vscopeFeed cfg fc (vscope_feed_loop cfg fc s l a n1).1.1
        (vscope_feed_loop cfg fc s l a n1).1.2 b n2 =
        vscope_feed_loop cfg fc (vscope_feed_loop cfg fc s l a n1).1.1
          (vscope_feed_loop cfg fc s l a n1).1.2 b n2 :=
      vscopeFeed_no_reset cfg fc _ _ b n2 hb h2
    have eN : vscopeFeed cfg fc s l (a ++ b) n =
        vscope_feed_loop cfg fc s l (a ++ b) n :=
      vscopeFeed_no_reset cfg fc s l (a ++ b) n (by simp [ha]) hn
    rw [e1, e2, eN, vscope_feed_loop_append cfg fc a b s l n]
    obtain ⟨tA, oA⟩ := vscope_feed_loop_time_invariant cfg fc a s l l n n1
    obtain ⟨tB, oB⟩ := vscope_feed_loop_time_invariant cfg fc b
      (vscope_feed_loop cfg fc s l a n1).1.1
      (vscope_feed_loop cfg fc s l a n).1.2
      (vscope_feed_loop cfg fc s l a n1).1.2 n n2
    constructor
    · rw [tA]
      exact tB.symm
    · rw [oA, tA, oB]
  · intro s l n data hd hnidle htime
    refine ⟨?_, rfl⟩
    unfold vscopeFeed
    rw [if_neg hd, if_pos ⟨hnidle, htime⟩]

/-- Witness for C9 at concrete inputs: non-SYNC bytes in IDLE are inert; a
GET_STATE frame split as [C8 02] then [04 FE] within the timeout behaves as
one call; a late call on a partial frame resets the receiver first. -/
theorem claim_C9_witness :
    (baseScope.rxState = RX_IDLE ∧
      vscopeFeed defaultConfig simpleCodec baseScope 0 [1, 2, 3] 5 =
        ((baseScope, 0), [])) ∧
    ((vscopeFeed defaultConfig simpleCodec
        (vscopeFeed defaultConfig simpleCodec baseScope 0 [0xC8, 0x02] 10).1.1
        (vscopeFeed defaultConfig simpleCodec baseScope 0 [0xC8, 0x02] 10).1.2
        [0x04, 0xFE] 20).1.1 =
      (vscopeFeed defaultConfig simpleCodec baseScope 0
        [0xC8, 0x02, 0x04, 0xFE] 20).1.1 ∧
     (vscopeFeed defaultConfig simpleCodec baseScope 0 [0xC8, 0x02] 10).2 ++
        (vscopeFeed defaultConfig simpleCodec
          (vscopeFeed defaultConfig simpleCodec baseScope 0 [0xC8, 0x02] 10).1.1
          (vscopeFeed defaultConfig simpleCodec baseScope 0 [0xC8, 0x02] 10).1.2
          [0x04, 0xFE] 20).2 =
      (vscopeFeed defaultConfig simpleCodec baseScope 0
        [0xC8, 0x02, 0x04, 0xFE] 20).2) ∧
    (scope1.rxState ≠ RX_IDLE ∧ defaultConfig.timeoutUs < u32sub 200000 0 ∧
      vscopeFeed defaultConfig simpleCodec scope1 0 [1] 200000 =
        vscope_feed_loop defaultConfig simpleCodec (vscope_reset_rx scope1) 0
          [1] 200000 ∧
      (vscope_reset_rx scope1).rxState = RX_IDLE) := by
  have h := claim_C9_framing defaultConfig simpleCodec
  refine ⟨⟨rfl, ?_⟩, ?_, ?_⟩
  · exact h.1 baseScope 0 5 [1, 2, 3] rfl (by decide)
  · exact h.2.1 baseScope 0 10 20 20 [0xC8, 0x02] [0x04, 0xFE] (by decide)
      (by decide) (Or.inl rfl) (Or.inl rfl) (by right; decide)
  · refine ⟨by decide, by decide, ?_⟩
    exact h.2.2 scope1 0 200000 [1] (by decide) (by decide) (by decide)

/-! ### Claim C10: frame pointers are always valid -/

/-- Pointer validity invariant: the channel map and frame pointer arrays have
N_CH entries, and either the catalog is empty and every frame pointer is the
internal zero cell, or every map entry indexes the catalog and every frame
pointer is the mapped catalog entry's pointer. -/
def PtrInv (cfg : Config) (s : Scope) : Prop :=
  s.channelMap.length = cfg.nCh ∧ s.frame.length = cfg.nCh ∧
  ((s.varCatalog.length = 0 ∧
      ∀ i < cfg.nCh, s.frame.getD i .null = FPtr.zeroCell) ∨
   (0 < s.varCatalog.length ∧
      ∀ i < cfg.nCh,
        s.channelMap.getD i 0 < s.varCatalog.length ∧
        s.frame.getD i .null =
          (s.varCatalog.getD (s.channelMap.getD i 0) (FVar.default cfg)).ptr))

theorem getD_mem_of_lt {α : Type _} {l : List α} {i : Nat} {d : α}
    (h : i < l.length) : l.getD i d ∈ l := by
  rw [List.getD_eq_getElem?_getD, List.getElem?_eq_getElem h]
  exact List.getElem_mem h

theorem vscopeInit_ptrInv (cfg : Config) (r : RegState)
    (dn : Option (List Nat)) (khz : Nat) (m : Nat → ℚ) :
    PtrInv cfg (vscopeInit cfg r dn khz m) := by
  unfold PtrInv vscopeInit
  by_cases h : r.varCatalog.length = 0
  · simp only [h, if_true, if_pos rfl]
    refine ⟨by simp, by simp, Or.inl ⟨by simp_all, ?_⟩⟩
    intro i hi
    exact getD_replicate _ _ _ _ hi
  · simp only [h, if_false, if_neg h]
    refine ⟨by simp, by simp, Or.inr ⟨by omega, ?_⟩⟩
    intro i hi
    rw [getD_range_map _ _ _ _ hi, getD_range_map _ _ _ _ hi]
    constructor
    · split_ifs <;> omega
    · rfl

theorem vscope_handle_frame_ptrInv (cfg : Config) (fc : FCodec) (s : Scope)
    (ty : Nat) (payload : List Nat) (hnch : 0 < cfg.nCh)
    (h : PtrInv cfg s) :
    PtrInv cfg (vscope_handle_frame cfg fc s ty payload).1 := by
  obtain ⟨hm, hf, hcases⟩ := h
  obtain ⟨-, -, -, hcat, -, -⟩ := vscope_handle_frame_preserves_acq cfg fc s ty payload
  rcases vscope_handle_frame_map_frame cfg fc s ty payload with ⟨e1, e2⟩ | ⟨hvalid, e1, e2⟩
  · exact ⟨e1 ▸ hm, e2 ▸ hf, by rw [e1, e2, hcat]; exact hcases⟩
  · refine ⟨by simp [e1], by simp [e2], Or.inr ⟨?_, ?_⟩⟩
    · rw [hcat]
      exact lt_of_le_of_lt (Nat.zero_le _) (hvalid 0 hnch)
    · intro i hi
      rw [e1, e2, hcat, getD_range_map _ _ _ _ hi, getD_range_map _ _ _ _ hi]
      exact ⟨hvalid i hi, rfl⟩

theorem vscope_rx_byte_ptrInv (cfg : Config) (fc : FCodec) (s : Scope)
    (lastUs b nowUs : Nat) (hnch : 0 < cfg.nCh) (h : PtrInv cfg s) :
    PtrInv cfg (vscope_rx_byte cfg fc s lastUs b nowUs).1.1 := by
  have hmid : PtrInv cfg
      { s with rxBuf := s.rxBuf.set s.rxIndex (b % 256), rxIndex := s.rxIndex + 1 } := h
  have hhandled := vscope_handle_frame_ptrInv cfg fc
    { s with rxBuf := s.rxBuf.set s.rxIndex (b % 256), rxIndex := s.rxIndex + 1 }
    ((s.rxBuf.set s.rxIndex (b % 256)).getD 0 0)
    (((s.rxBuf.set s.rxIndex (b % 256)).drop 1).take (s.rxExpectedLen - 2))
    hnch hmid
  simp only [vscope_rx_byte, vscope_reset_rx]
  split_ifs <;> first
    | exact h
    | exact hhandled

theorem vscope_feed_loop_ptrInv (cfg : Config) (fc : FCodec) (data : List Nat)
    (hnch : 0 < cfg.nCh) :
    ∀ (s : Scope) (lastUs nowUs : Nat), PtrInv cfg s →
    PtrInv cfg (vscope_feed_loop cfg fc s lastUs data nowUs).1.1 := by
  induction data with
  | nil => exact fun s _ _ h => h
  | cons b rest ih =>
      intro s lastUs nowUs h
      exact ih _ _ nowUs (vscope_rx_byte_ptrInv cfg fc s lastUs b nowUs hnch h)

theorem stepEv_ptrInv (cfg : Config) (fc : FCodec) (p : Scope × Nat) (e : Ev)
    (hnch : 0 < cfg.nCh) (h : PtrInv cfg p.1) :
    PtrInv cfg (stepEv cfg fc p e).1 := by
  cases e with
  | tick env =>
      show PtrInv cfg (vscopeAcquire cfg { p.1 with mem := env })
      obtain ⟨-, -, -, -, -, -, a7, a8, a9, -, -, -⟩ :=
        vscopeAcquire_preserves_config cfg { p.1 with mem := env }
      obtain ⟨hm, hf, hcases⟩ := h
      refine ⟨?_, ?_, ?_⟩
      · rw [a7]; exact hm
      · rw [a8]; exact hf
      · rw [a7, a8, a9]; exact hcases
  | cmd ty payload => exact vscope_handle_frame_ptrInv cfg fc p.1 ty payload hnch h
  | feed bytes nowUs =>
      show PtrInv cfg (vscopeFeed cfg fc p.1 p.2 bytes nowUs).1.1
      unfold vscopeFeed
      split_ifs
      · exact h
      · exact vscope_feed_loop_ptrInv cfg fc bytes hnch _ _ _ h
      · exact vscope_feed_loop_ptrInv cfg fc bytes hnch _ _ _ h
  | trig =>
      show PtrInv cfg (vscopeTrigger p.1)
      unfold vscopeTrigger
      split_ifs <;> exact h

theorem runEv_ptrInv (cfg : Config) (fc : FCodec) (events : List Ev)
    (hnch : 0 < cfg.nCh) :
    ∀ p : Scope × Nat, PtrInv cfg p.1 → PtrInv cfg (runEv cfg fc p events).1 := by
  induction events with
  | nil => exact fun p h => h
  | cons e es ih =>
      intro p h
      exact ih (stepEv cfg fc p e) (stepEv_ptrInv cfg fc p e hnch h)

theorem runEv_varCatalog (cfg : Config) (fc : FCodec) (events : List Ev) :
    ∀ p : Scope × Nat, (runEv cfg fc p events).1.varCatalog = p.1.varCatalog := by
  induction events with
  | nil => exact fun p => rfl
  | cons e es ih =>
      intro p
      refine (ih (stepEv cfg fc p e)).trans ?_
      cases e with
      | tick env =>
          exact (vscopeAcquire_preserves_config cfg { p.1 with mem := env }).2.2.2.2.2.2.2.2.1
      | cmd ty payload =>
          exact (vscope_handle_frame_preserves_acq cfg fc p.1 ty payload).2.2.2.1
      | feed bytes nowUs =>
          exact (vscopeFeed_preserves_acq cfg fc p.1 p.2 bytes nowUs).2.2.2
      | trig =>
          show (vscopeTrigger p.1).varCatalog = p.1.varCatalog
          unfold vscopeTrigger
          split_ifs <;> rfl

/-- Claim C10: after init and any sequence of ticks, commands, fed bytes and
manual triggers, every frame pointer is non-NULL — it is the internal zero
cell or the pointer of a registered catalog entry — and when the catalog is
non-empty every channel-map entry indexes the catalog.  Frame sampling and
GET_FRAME therefore never dereference an unset pointer. -/
theorem claim_C10_frame_pointers_valid (cfg : Config) (fc : FCodec)
    (r : RegState) (dn : Option (List Nat)) (khz : Nat) (m : Nat → ℚ)
    (lastUs : Nat) (events : List Ev) (hnch : 0 < cfg.nCh)
    (hcat : ∀ v ∈ r.varCatalog, v.ptr ≠ FPtr.null) :
    ∀ i < cfg.nCh,
      (runEv cfg fc (vscopeInit cfg r dn khz m, lastUs) events).1.frame.getD i .null ≠
        FPtr.null ∧
      ((runEv cfg fc (vscopeInit cfg r dn khz m, lastUs) events).1.frame.getD i .null =
          FPtr.zeroCell ∨
        ∃ v ∈ r.varCatalog,
          (runEv cfg fc (vscopeInit cfg r dn khz m, lastUs) events).1.frame.getD i .null =
            v.ptr) ∧
      (0 < r.varCatalog.length →
        (runEv cfg fc (vscopeInit cfg r dn khz m, lastUs) events).1.channelMap.getD i 0 <
          r.varCatalog.length) := by
  intro i hi
  have hinv := runEv_ptrInv cfg fc events hnch (vscopeInit cfg r dn khz m, lastUs)
    (vscopeInit_ptrInv cfg r dn khz m)
  have hcat0 : (runEv cfg fc (vscopeInit cfg r dn khz m, lastUs) events).1.varCatalog =
      r.varCatalog := by
    rw [runEv_varCatalog]
    rfl
  obtain ⟨-, -, hcases⟩ := hinv
  rcases hcases with ⟨hz, hframe⟩ | ⟨hpos, hentries⟩
  · rw [hframe i hi]
    refine ⟨by simp, Or.inl rfl, ?_⟩
    rw [hcat0] at hz
    omega
  · obtain ⟨hlt, heq⟩ := hentries i hi
    rw [hcat0] at hlt hpos
    rw [heq, hcat0]
    have hmem : r.varCatalog.getD _ (FVar.default cfg) ∈ r.varCatalog :=
      getD_mem_of_lt hlt
    exact ⟨hcat _ hmem, Or.inr ⟨_, hmem, rfl⟩, fun _ => hlt⟩

/-- Witness for C10: a concrete run (one tick, then SET_CHANNEL_MAP
[1,1,1,1,1]) keeps channel 0's pointer valid. -/
theorem claim_C10_witness :
    0 < defaultConfig.nCh ∧
    ((runEv defaultConfig simpleCodec
        (vscopeInit defaultConfig regA none 16 (fun _ => 0), 0)
        [Ev.tick (fun _ => 1), Ev.cmd 0x0C [1, 1, 1, 1, 1]]).1.frame.getD 0 .null ≠
      FPtr.null ∧
     ((runEv defaultConfig simpleCodec
        (vscopeInit defaultConfig regA none 16 (fun _ => 0), 0)
        [Ev.tick (fun _ => 1), Ev.cmd 0x0C [1, 1, 1, 1, 1]]).1.frame.getD 0 .null =
        FPtr.zeroCell ∨
      ∃ v ∈ regA.varCatalog,
        (runEv defaultConfig simpleCodec
          (vscopeInit defaultConfig regA none 16 (fun _ => 0), 0)
          [Ev.tick (fun _ => 1), Ev.cmd 0x0C [1, 1, 1, 1, 1]]).1.frame.getD 0 .null =
          v.ptr) ∧
     (0 < regA.varCatalog.length →
       (runEv defaultConfig simpleCodec
          (vscopeInit defaultConfig regA none 16 (fun _ => 0), 0)
          [Ev.tick (fun _ => 1), Ev.cmd 0x0C [1, 1, 1, 1, 1]]).1.channelMap.getD 0 0 <
         regA.varCatalog.length)) :=
  ⟨by decide,
   claim_C10_frame_pointers_valid defaultConfig simpleCodec regA none 16
     (fun _ => 0) 0 [Ev.tick (fun _ => 1), Ev.cmd 0x0C [1, 1, 1, 1, 1]]
     (by decide) (by decide) 0 (by decide)⟩

/-! ### Claim C2: acquisition timing and snapshot readback -/

theorem vscopeAcquire_effective (cfg : Config) (s : Scope) (hdiv : s.divider = 1)
    (hdt : s.dividerTicks = 0) :
    vscopeAcquire cfg s =
      vscope_acquire_switch cfg (vscope_check_trigger { s with dividerTicks := 0 }) := by
  unfold vscopeAcquire
  rw [if_neg (by simp [hdt, hdiv])]

theorem switch_acquiring_complete (cfg : Config) (u : Scope)
    (hst : u.state = ACQUIRING) (heq : u.runIndex = u.acqTime) :
    vscope_acquire_switch cfg u =
      { u with state := HALTED, firstElement := u.index, snapValid := true } := by
  unfold vscope_acquire_switch
  rw [if_neg (by rw [hst]; decide), if_neg (by rw [hst]; decide), if_pos hst,
    if_pos heq]

theorem switch_acquiring_step (cfg : Config) (u : Scope)
    (hst : u.state = ACQUIRING) (hne : u.runIndex ≠ u.acqTime) :
    vscope_acquire_switch cfg u =
      vscope_save_frame cfg { u with runIndex := (u.runIndex + 1) % 65536 } := by
  unfold vscope_acquire_switch
  rw [if_neg (by rw [hst]; decide), if_neg (by rw [hst]; decide), if_pos hst,
    if_neg hne]

theorem switch_running_observe (cfg : Config) (u : Scope)
    (hst : u.state = RUNNING) (hreq : u.request = ACQUIRING) :
    vscope_acquire_switch cfg u =
      if u.acqTime = 0 then
        vscope_save_frame cfg
          { vscope_capture_snapshot_meta u with
            state := HALTED, firstElement := u.index, snapValid := true }
      else
        vscope_save_frame cfg
          { vscope_capture_snapshot_meta u with state := ACQUIRING, runIndex := 1 } := by
  unfold vscope_acquire_switch
  rw [if_neg (by rw [hst]; decide), if_pos hst]
  norm_num [ACQUIRING, HALTED, hreq]
  simp only [vscope_capture_snapshot_meta]
  split_ifs <;> rfl

theorem getD_set_self {α : Type _} {l : List α} {i : Nat} {a d : α}
    (h : i < l.length) : (l.set i a).getD i d = a := by
  rw [List.getD_eq_getElem?_getD, List.getElem?_set_self]
  · rfl
  · exact h

theorem tick_acq_step (cfg : Config) (s : Scope) (env : Nat → ℚ)
    (hst : s.state = ACQUIRING) (hdiv : s.divider = 1)
    (hdt : s.dividerTicks = 0) (hne : s.runIndex ≠ s.acqTime) :
    (vscopeAcquire cfg { s with mem := env }).state = ACQUIRING ∧
    (vscopeAcquire cfg { s with mem := env }).runIndex = (s.runIndex + 1) % 65536 ∧
    (vscopeAcquire cfg { s with mem := env }).snapValid = s.snapValid ∧
    (vscopeAcquire cfg { s with mem := env }).divider = s.divider ∧
    (vscopeAcquire cfg { s with mem := env }).dividerTicks = 0 ∧
    (vscopeAcquire cfg { s with mem := env }).acqTime = s.acqTime ∧
    (vscopeAcquire cfg { s with mem := env }).firstElement = s.firstElement ∧
    (s.index < cfg.buf → 0 < cfg.buf →
      (vscopeAcquire cfg { s with mem := env }).index < cfg.buf) := by
  have heff := vscopeAcquire_effective cfg { s with mem := env } hdiv hdt
  obtain ⟨c1, c2, -, c4, c5, c6, -, c8, c9, c10, -, -, -, -, -, -, -, -, -,
    -, -, -⟩ := check_trigger_fields { { s with mem := env } with dividerTicks := 0 }
  have hstT : (vscope_check_trigger
      { { s with mem := env } with dividerTicks := 0 }).state = ACQUIRING :=
    c1.trans hst
  have hneT : (vscope_check_trigger
      { { s with mem := env } with dividerTicks := 0 }).runIndex ≠
      (vscope_check_trigger
        { { s with mem := env } with dividerTicks := 0 }).acqTime := by
    rw [c9, c4]
    exact hne
  rw [heff, switch_acquiring_step cfg _ hstT hneT]
  simp only [vscope_save_frame]
  refine ⟨hstT, by rw [c9], by rw [c8], by rw [c2], by rw [c10], by rw [c4],
    by rw [c6], ?_⟩
  intro hidx hbuf
  have : (vscope_check_trigger
      { { s with mem := env } with dividerTicks := 0 }).index = s.index := c5
  simp only [this]
  split_ifs <;> omega

theorem tick_acq_complete (cfg : Config) (s : Scope) (env : Nat → ℚ)
    (hst : s.state = ACQUIRING) (hdiv : s.divider = 1)
    (hdt : s.dividerTicks = 0) (heq : s.runIndex = s.acqTime) :
    (vscopeAcquire cfg { s with mem := env }).state = HALTED ∧
    (vscopeAcquire cfg { s with mem := env }).snapValid = true ∧
    (vscopeAcquire cfg { s with mem := env }).firstElement = s.index ∧
    (vscopeAcquire cfg { s with mem := env }).index = s.index ∧
    (vscopeAcquire cfg { s with mem := env }).buffer = s.buffer := by
  have heff := vscopeAcquire_effective cfg { s with mem := env } hdiv hdt
  obtain ⟨c1, -, -, c4, c5, -, c7, -, c9, -, -, -, -, -, -, -, -, -, -, -,
    -, -⟩ := check_trigger_fields { { s with mem := env } with dividerTicks := 0 }
  have hstT : (vscope_check_trigger
      { { s with mem := env } with dividerTicks := 0 }).state = ACQUIRING :=
    c1.trans hst
  have heqT : (vscope_check_trigger
      { { s with mem := env } with dividerTicks := 0 }).runIndex =
      (vscope_check_trigger
        { { s with mem := env } with dividerTicks := 0 }).acqTime := by
    rw [c9, c4]
    exact heq
  rw [heff, switch_acquiring_complete cfg _ hstT heqT]
  exact ⟨rfl, rfl, c5, c5, c7⟩

theorem tick_run_observe (cfg : Config) (s : Scope) (env : Nat → ℚ)
    (hst : s.state = RUNNING) (hreq : s.request = ACQUIRING)
    (hdiv : s.divider = 1) (hdt : s.dividerTicks = 0) :
    (s.acqTime = 0 →
      (vscopeAcquire cfg { s with mem := env }).state = HALTED ∧
      (vscopeAcquire cfg { s with mem := env }).snapValid = true ∧
      (vscopeAcquire cfg { s with mem := env }).firstElement = s.index ∧
      (vscopeAcquire cfg { s with mem := env }).buffer =
        s.buffer.set s.index
          ((List.range cfg.nCh).map (fun i => fderef env (s.frame.getD i .null)))) ∧
    (s.acqTime ≠ 0 →
      (vscopeAcquire cfg { s with mem := env }).state = ACQUIRING ∧
      (vscopeAcquire cfg { s with mem := env }).runIndex = 1 ∧
      (vscopeAcquire cfg { s with mem := env }).snapValid = s.snapValid ∧
      (vscopeAcquire cfg { s with mem := env }).divider = s.divider ∧
      (vscopeAcquire cfg { s with mem := env }).dividerTicks = 0 ∧
      (vscopeAcquire cfg { s with mem := env }).acqTime = s.acqTime ∧
      (s.index < cfg.buf → 0 < cfg.buf →
        (vscopeAcquire cfg { s with mem := env }).index < cfg.buf)) := by
  have heff := vscopeAcquire_effective cfg { s with mem := env } hdiv hdt
  obtain ⟨c1, c2, -, c4, c5, c6, c7, c8, -, c10, c11, c12, -, -, -, -, -,
    -, -, -, cr1, -⟩ :=
    check_trigger_fields { { s with mem := env } with dividerTicks := 0 }
  have hstT : (vscope_check_trigger
      { { s with mem := env } with dividerTicks := 0 }).state = RUNNING :=
    c1.trans hst
  have hreqT : (vscope_check_trigger
      { { s with mem := env } with dividerTicks := 0 }).request = ACQUIRING :=
    cr1 hreq
  rw [heff, switch_running_observe cfg _ hstT hreqT]
  constructor
  · intro hz
    have hzT : (vscope_check_trigger
        { { s with mem := env } with dividerTicks := 0 }).acqTime = 0 :=
      c4.trans hz
    rw [if_pos hzT]
    simp only [vscope_save_frame, vscope_capture_snapshot_meta]
    refine ⟨by trivial, by trivial, c5, ?_⟩
    rw [c7, c5, c12, c11]
  · intro hz
    have hzT : ¬ (vscope_check_trigger
        { { s with mem := env } with dividerTicks := 0 }).acqTime = 0 := by
      rw [c4]
      exact hz
    rw [if_neg hzT]
    simp only [vscope_save_frame, vscope_capture_snapshot_meta]
    refine ⟨by trivial, by trivial, by rw [c8], by rw [c2], by rw [c10], by rw [c4], ?_⟩
    intro hidx hbuf
    simp only [c5]
    split_ifs <;> omega

theorem ticksN_shift (cfg : Config) (envs : Nat → Nat → ℚ) (s : Scope) :
    ∀ k : Nat, ticksN cfg envs s (k + 1) =
      ticksN cfg (fun i => envs (i + 1))
        (vscopeAcquire cfg { s with mem := envs 0 }) k := by
  intro k
  induction k with
  | zero => rfl
  | succ n ihn =>
      show vscopeAcquire cfg { ticksN cfg envs s (n + 1) with mem := envs (n + 1) } = _
      rw [ihn]
      rfl

/-- Progress of the ACQUIRING phase: starting from an ACQUIRING state with a
positive run index r and r + j = acq_time, the snapshot stays invalid for j
more ticks and completes on tick j + 1. -/
theorem acq_progress (cfg : Config) (j : Nat) :
    ∀ (s : Scope) (envs : Nat → Nat → ℚ),
    s.state = ACQUIRING → s.divider = 1 → s.dividerTicks = 0 →
    0 < s.runIndex → s.runIndex + j = s.acqTime → s.acqTime ≤ 65535 →
    s.index < cfg.buf → 0 < cfg.buf →
    ((∀ k ≤ j, (ticksN cfg envs s k).snapValid = s.snapValid) ∧
     (ticksN cfg envs s (j + 1)).snapValid = true ∧
     (ticksN cfg envs s (j + 1)).state = HALTED ∧
     (ticksN cfg envs s (j + 1)).firstElement < cfg.buf) := by
  induction j with
  | zero =>
      intro s envs hst hdiv hdt hri hsum hle hidx hbuf
      obtain ⟨e1, e2, e3, e4, -⟩ :=
        tick_acq_complete cfg s (envs 0) hst hdiv hdt (by omega)
      refine ⟨?_, e2, e1, ?_⟩
      · intro k hk
        interval_cases k
        rfl
      · show (vscopeAcquire cfg { s with mem := envs 0 }).firstElement < cfg.buf
        rw [e3]
        exact hidx
  | succ n ih =>
      intro s envs hst hdiv hdt hri hsum hle hidx hbuf
      obtain ⟨e1, e2, e3, e4, e5, e6, -, e8⟩ :=
        tick_acq_step cfg s (envs 0) hst hdiv hdt (by omega)
      have hri1 : (vscopeAcquire cfg { s with mem := envs 0 }).runIndex =
          s.runIndex + 1 := by
        rw [e2]
        exact Nat.mod_eq_of_lt (by omega)
      obtain ⟨ih1, ih2, ih3, ih4⟩ := ih (vscopeAcquire cfg { s with mem := envs 0 })
        (fun i => envs (i + 1)) e1 (by rw [e4, hdiv]) e5 (by omega)
        (by rw [hri1, e6]; omega) (by rw [e6]; exact hle) (e8 hidx hbuf) hbuf
      refine ⟨?_, ?_, ?_, ?_⟩
      · intro k hk
        cases k with
        | zero => rfl
        | succ m =>
            rw [ticksN_shift]
            rw [ih1 m (by omega), e3]
      · rw [ticksN_shift]
        exact ih2
      · rw [ticksN_shift]
        exact ih3
      · rw [ticksN_shift]
        exact ih4

/-- GET_SNAPSHOT_DATA(0,1) with a valid snapshot returns the single buffer
row at the first-element index, channel by channel through the float
encoder. -/
theorem get_snapshot_one_row (cfg : Config) (fc : FCodec) (s : Scope)
    (hsnap : s.snapValid = true) (hbuf : 0 < cfg.buf)
    (hf : s.firstElement < cfg.buf) (hnch : 0 < cfg.nCh)
    (hnch63 : cfg.nCh ≤ 63) :
    (vscope_handle_frame cfg fc s 0x09 [0, 0, 1]).2 =
      vscope_send_payload 0x09
        ((List.range cfg.nCh).flatMap (fun ch =>
          fc.enc ((s.buffer.getD s.firstElement []).getD ch 0))) := by
  have g0 : ([0, 0, 1] : List Nat).getD 0 0 = 0 := rfl
  have g1 : ([0, 0, 1] : List Nat).getD 1 0 = 0 := rfl
  have g2 : ([0, 0, 1] : List Nat).getD 2 0 = 1 := rfl
  show (vscope_handle_get_snapshot_data cfg fc s [0, 0, 1]).2 = _
  unfold vscope_handle_get_snapshot_data
  rw [if_neg (by rw [hsnap]; decide), if_neg (by decide)]
  rw [if_neg ?h1, if_neg ?h2, if_neg ?h3]
  case h1 =>
    simp only [readU16, g0, g1, g2]
    push_neg
    exact ⟨by omega, by omega, by omega⟩
  case h2 =>
    simp only [readU16, g0, g1, g2]
    omega
  case h3 =>
    simp only [g2]
    rw [not_lt, Nat.one_le_div_iff (by omega)]
    simp only [maxPayload]
    omega
  have hrange1 : List.range 1 = [0] := rfl
  simp only [readU16, g0, g1, g2, hrange1, List.flatMap_cons, List.flatMap_nil,
    List.append_nil, Nat.mul_zero, Nat.add_zero]
  rw [Nat.mod_eq_of_lt hf]

/-- Claim C2 (amended): from RUNNING with the request ACQUIRING at divider 1,
the snapshot becomes valid exactly acq_time ticks after the tick that
observes the request (on that same tick when acq_time = 0), and a subsequent
GET_SNAPSHOT_DATA(0,1) returns the single buffer row stored at the
first-element index f; for acq_time = 0 that row holds the frame values
sampled at the completing tick (for acq_time > 0 the completing tick stores
nothing, so buffer row f is the oldest retained sample, not the values at
completion). -/
theorem claim_C2_snapshot_timing (cfg : Config) (fc : FCodec) (s0 : Scope)
    (envs : Nat → Nat → ℚ)
    (hstate : s0.state = RUNNING) (hreq : s0.request = ACQUIRING)
    (hdiv : s0.divider = 1) (hdt : s0.dividerTicks = 0)
    (hsnap : s0.snapValid = false) (hacq : s0.acqTime ≤ 65535)
    (hbuf : 0 < cfg.buf) (hidx : s0.index < cfg.buf)
    (hblen : s0.buffer.length = cfg.buf)
    (hnch : 0 < cfg.nCh) (hnch63 : cfg.nCh ≤ 63) :
    (∀ k, 1 ≤ k → k ≤ s0.acqTime → (ticksN cfg envs s0 k).snapValid = false) ∧
    (ticksN cfg envs s0 (s0.acqTime + 1)).snapValid = true ∧
    (ticksN cfg envs s0 (s0.acqTime + 1)).state = HALTED ∧
    ((vscope_handle_frame cfg fc (ticksN cfg envs s0 (s0.acqTime + 1))
        0x09 [0, 0, 1]).2 =
      vscope_send_payload 0x09
        ((List.range cfg.nCh).flatMap (fun ch =>
          fc.enc (((ticksN cfg envs s0 (s0.acqTime + 1)).buffer.getD
            (ticksN cfg envs s0 (s0.acqTime + 1)).firstElement []).getD ch 0)))) ∧
    (s0.acqTime = 0 →
      (ticksN cfg envs s0 1).buffer.getD (ticksN cfg envs s0 1).firstElement [] =
        (List.range cfg.nCh).map (fun i => fderef (envs 0) (s0.frame.getD i .null))) := by
  by_cases hz : s0.acqTime = 0
  · obtain ⟨oz, -⟩ := tick_run_observe cfg s0 (envs 0) hstate hreq hdiv hdt
    obtain ⟨z1, z2, z3, z4⟩ := oz hz
    have hone : ticksN cfg envs s0 (s0.acqTime + 1) =
        vscopeAcquire cfg { s0 with mem := envs 0 } := by
      conv_lhs => rw [hz]
      rfl
    have hone1 : ticksN cfg envs s0 1 =
        vscopeAcquire cfg { s0 with mem := envs 0 } := rfl
    have hrow : (vscopeAcquire cfg { s0 with mem := envs 0 }).buffer.getD
        (vscopeAcquire cfg { s0 with mem := envs 0 }).firstElement [] =
        (List.range cfg.nCh).map (fun i => fderef (envs 0) (s0.frame.getD i .null)) := by
      rw [z4, z3]
      exact getD_set_self (by rw [hblen]; exact hidx)
    refine ⟨?_, ?_, ?_, ?_, ?_⟩
    · intro k hk1 hka
      omega
    · rw [hone]
      exact z2
    · rw [hone]
      exact z1
    · rw [hone]
      exact get_snapshot_one_row cfg fc _ z2 hbuf (by rw [z3]; exact hidx)
        hnch hnch63
    · intro _
      rw [hone1]
      exact hrow
  · obtain ⟨-, onz⟩ := tick_run_observe cfg s0 (envs 0) hstate hreq hdiv hdt
    obtain ⟨n1, n2, n3, n4, n5, n6, n7⟩ := onz hz
    obtain ⟨p1, p2, p3, p4⟩ := acq_progress cfg (s0.acqTime - 1)
      (vscopeAcquire cfg { s0 with mem := envs 0 }) (fun i => envs (i + 1))
      n1 (by rw [n4, hdiv]) n5 (by rw [n2]; omega)
      (by rw [n2, n6]; omega) (by rw [n6]; exact hacq) (n7 hidx hbuf) hbuf
    have ha : s0.acqTime - 1 + 1 = s0.acqTime := by omega
    have hshift : ticksN cfg envs s0 (s0.acqTime + 1) =
        ticksN cfg (fun i => envs (i + 1))
          (vscopeAcquire cfg { s0 with mem := envs 0 }) (s0.acqTime - 1 + 1) := by
      rw [ha]
      exact ticksN_shift cfg envs s0 s0.acqTime
    refine ⟨?_, ?_, ?_, ?_, ?_⟩
    · intro k hk1 hka
      obtain ⟨m, rfl⟩ : ∃ m, k = m + 1 := ⟨k - 1, by omega⟩
      rw [ticksN_shift, p1 m (by omega), n3]
      exact hsnap
    · rw [hshift]
      exact p2
    · rw [hshift]
      exact p3
    · rw [hshift]
      exact get_snapshot_one_row cfg fc _ p2 hbuf p4 hnch hnch63
    · intro h
      exact absurd h hz

/-- Configuration for the C2 counterexample (legal compile-time values:
2 channels, buffer depth 4). -/
def c2Cfg : Config :=
  { nCh := 2, buf := 4, nameLen := 8, maxVars := 8, rtLen := 4,
    timeoutUs := 1000, protoVersion := 1 }

/-- Two registered variables at addresses 0 and 1. -/
def c2Reg : RegState :=
  { varCatalog := [{ name := [97], ptr := .mem 0 }, { name := [98], ptr := .mem 1 }],
    rtValues := [], rtNames := [], locked := false }

/-- Run for the C2 counterexample: SET_TIMING(divider 1, pre_trig 2) so
acq_time = 2, SET_STATE(RUNNING), one tick to enter RUNNING, two pre-trigger
ticks (channel values 2 then 3), manual trigger, then three ticks (values 4,
5, 6); the snapshot completes on the last tick while the channels read 6. -/
def c2Run : Scope :=
  (runEv c2Cfg simpleCodec (vscopeInit c2Cfg c2Reg none 1 (fun _ => 0), 0)
    [Ev.cmd 0x03 [1, 0, 0, 0, 2, 0, 0, 0],
     Ev.cmd 0x05 [1],
     Ev.tick (fun _ => 1), Ev.tick (fun _ => 2), Ev.tick (fun _ => 3),
     Ev.trig,
     Ev.tick (fun _ => 4), Ev.tick (fun _ => 5), Ev.tick (fun _ => 6)]).1

/-- Counterexample to C2 as stated: after a trigger with pre_trig samples
present, the snapshot completes (snapshot_valid, HALTED), but
GET_SNAPSHOT_DATA(0,1) returns the encoding of the row [2, 2] stored at
buffer index f — the oldest retained pre-trigger sample — while the values
`*frame[i]` held at the tick the snapshot completed encode to [6, ...]: the
readback does not equal the frame values at the completing tick. -/
theorem claim_C2_counterexample :
    c2Run.snapValid = true ∧ c2Run.state = HALTED ∧ c2Run.preTrig = 2 ∧
    c2Run.acqTime = 2 ∧
    (vscope_handle_frame c2Cfg simpleCodec c2Run 0x09 [0, 0, 1]).2 =
      vscope_send_payload 0x09 [2, 0, 0, 0, 2, 0, 0, 0] ∧
    ((List.range c2Cfg.nCh).flatMap (fun i =>
        simpleCodec.enc (fderef c2Run.mem (c2Run.frame.getD i .null)))) =
      [6, 0, 0, 0, 6, 0, 0, 0] ∧
    ([2, 0, 0, 0, 2, 0, 0, 0] : List Nat) ≠ [6, 0, 0, 0, 6, 0, 0, 0] := by
  refine ⟨by decide, by decide, by decide, by decide, by decide, by decide,
    by decide⟩

/-- Armed state for the C2 witness: RUNNING with the trigger request already
latched, under the counterexample configuration. -/
def c2Scope : Scope :=
  { vscopeInit c2Cfg c2Reg none 1 (fun _ => 0) with
    state := RUNNING
    request := ACQUIRING }

/-- Witness for the amended C2 theorem at a concrete armed state. -/
theorem claim_C2_witness :
    (c2Scope.state = RUNNING ∧ c2Scope.request = ACQUIRING ∧
      c2Scope.divider = 1 ∧ c2Scope.snapValid = false ∧
      c2Scope.acqTime = 4) ∧
    ((∀ k, 1 ≤ k → k ≤ c2Scope.acqTime →
        (ticksN c2Cfg (fun k _ => (k : ℚ)) c2Scope k).snapValid = false) ∧
      (ticksN c2Cfg (fun k _ => (k : ℚ)) c2Scope (c2Scope.acqTime + 1)).snapValid = true ∧
      (ticksN c2Cfg (fun k _ => (k : ℚ)) c2Scope (c2Scope.acqTime + 1)).state = HALTED ∧
      ((vscope_handle_frame c2Cfg simpleCodec
          (ticksN c2Cfg (fun k _ => (k : ℚ)) c2Scope (c2Scope.acqTime + 1))
          0x09 [0, 0, 1]).2 =
        vscope_send_payload 0x09
          ((List.range c2Cfg.nCh).flatMap (fun ch =>
            simpleCodec.enc
              (((ticksN c2Cfg (fun k _ => (k : ℚ)) c2Scope (c2Scope.acqTime + 1)).buffer.getD
                (ticksN c2Cfg (fun k _ => (k : ℚ)) c2Scope (c2Scope.acqTime + 1)).firstElement
                []).getD ch 0)))) ∧
      (c2Scope.acqTime = 0 →
        (ticksN c2Cfg (fun k _ => (k : ℚ)) c2Scope 1).buffer.getD
            (ticksN c2Cfg (fun k _ => (k : ℚ)) c2Scope 1).firstElement [] =
          (List.range c2Cfg.nCh).map
            (fun i => fderef ((fun k _ => (k : ℚ)) 0) (c2Scope.frame.getD i .null)))) :=
  ⟨⟨rfl, rfl, by decide, by decide, by decide⟩,
   claim_C2_snapshot_timing c2Cfg simpleCodec c2Scope (fun k _ => (k : ℚ))
     rfl rfl (by decide) (by decide) (by decide) (by decide) (by decide)
     (by decide) (by decide) (by decide) (by decide)⟩

end VScope
